import Mathlib

/-!
# Handheld-console platform backend (`src/platforms/rcore_3ds.c`) and example programs

A shallow embedding of the window / input / timer functions of the 3DS backend, of the
update step of the sprite-button example, of the render-target load and unload functions of
the depth-writing example, and of the socket search of the bone-socket example.

Conventions of the embedding

* The global `CORE` context and the file-static `platform` record are fields of an explicit
  `World` that every function takes and returns.
* `TRACELOG(level, msg)` appends `(level, msg)` to `World.log`.
* A call into the vendor SDK appends the call to `World.calls`; the value the SDK answers
  with is read from an `SDK` record passed to the function.
* C arrays are total maps from the index to the element, `for (int i = 0; i < n; i++)` is
  `forLoop n`. An index beyond the declared size of an array has no memory-layout meaning
  here: a store to it changes that index of that array only.
* Constants that the backend takes from headers (`MAX_KEYBOARD_KEYS`, `DS_KEY_UP`, ...) are
  fields of a `Config` parameter.
* A `float` that is only copied or built from the literals 0 and 1 is the number it denotes;
  `double` arithmetic is the exact result rounded by `roundToDouble`.
* Library functions whose bodies are outside the sources at hand are parameters
  (`RL_CheckCollisionPointRec`, `RL_TextIsEqual`) or recorded calls with their answers given
  as input (the rendering layer functions `rl...`).
-/

namespace Rcore3DS

/-! ## Data model -/

/-- Two float components. The modelled functions only copy floats or build them from the
integer literals 0 and 1, so a float is represented by the number it denotes. -/
structure Vector2 where
  x : ℚ
  y : ℚ
  deriving DecidableEq, Repr

/-- Integer point, the type of `CORE.Window.position`. -/
structure Point where
  x : Int
  y : Int
  deriving DecidableEq, Repr

/-- Integer size, the type of `CORE.Window.screen`, `screenMin`, `screenMax`. -/
structure Size where
  width : Int
  height : Int
  deriving DecidableEq, Repr

/-- Levels used by `TRACELOG` in this file. -/
inductive TraceLogLevel where
  | LOG_INFO
  | LOG_WARNING
  deriving DecidableEq, Repr

/-- Calls into the vendor SDK and libc that the backend makes. The libc call `system` occurs
in the source only inside the comments of `OpenURL`. -/
inductive ExternCall where
  | aptMainLoop
  | hidScanInput
  | hidKeysDown
  | hidKeysUp
  | svcGetSystemTick
  | pglSwapBuffers
  | pglSelectScreen (screen : Nat) (side : Nat)
  | printf (text : String)
  | system (command : String)
  deriving DecidableEq, Repr

/-- Fields of `CORE.Window` used by the backend. -/
structure WindowData where
  title : String
  ready : Bool
  resizedLastFrame : Bool
  position : Point
  screen : Size
  screenMin : Size
  screenMax : Size

/-- Fields of `CORE.Input.Keyboard` used by the backend. -/
structure KeyboardData where
  currentKeyState : Nat → Nat
  previousKeyState : Nat → Nat
  keyRepeatInFrame : Nat → Nat
  keyPressedQueueCount : Int
  charPressedQueueCount : Int

/-- Fields of `CORE.Input.Mouse` used by the backend. -/
structure MouseData where
  currentPosition : Vector2
  previousPosition : Vector2
  currentButtonState : Nat → Nat
  previousButtonState : Nat → Nat
  currentWheelMove : Vector2
  previousWheelMove : Vector2

/-- Fields of `CORE.Input.Touch` used by the backend. -/
structure TouchData where
  position : Nat → Vector2
  currentTouchState : Nat → Nat
  previousTouchState : Nat → Nat

/-- Fields of `CORE.Input.Gamepad` used by the backend. -/
structure GamepadData where
  lastButtonPressed : Int

/-- The record `CORE.Input`. -/
structure InputData where
  Keyboard : KeyboardData
  Mouse : MouseData
  Touch : TouchData
  Gamepad : GamepadData

/-- The record `CORE.Time`; `base` is an unsigned 64-bit tick count. -/
structure TimeData where
  base : Nat

/-- The global `CORE` context, restricted to what the backend reads or writes. -/
structure CoreData where
  Window : WindowData
  Input : InputData
  Time : TimeData

/-- The file-static `platform` record. `handle` is a pointer (`none` is `NULL`). -/
structure PlatformData where
  handle : Option Nat
  romfs : Int
  currentScreen : Int

/-- Everything a backend function can read or write. -/
structure World where
  CORE : CoreData
  platform : PlatformData
  log : List (TraceLogLevel × String)
  calls : List ExternCall

/-- Answers of the vendor SDK to the calls of one backend function. -/
structure SDK where
  aptMainLoop : Bool
  hidKeysDown : Nat
  hidKeysUp : Nat
  svcGetSystemTick : Nat

/-- The macro `TRACELOG(level, text)`. -/
def TRACELOG (level : TraceLogLevel) (text : String) (w : World) : World :=
  { w with log := w.log ++ [(level, text)] }

/-- Record one call into the SDK. -/
def recordCall (c : ExternCall) (w : World) : World :=
  { w with calls := w.calls ++ [c] }

/-! ## Window functions -/

/-- `bool WindowShouldClose(void)`:
`if (CORE.Window.ready) return !aptMainLoop(); return true;` -/
def WindowShouldClose (sdk : SDK) (w : World) : Bool × World :=
  if w.CORE.Window.ready then (!sdk.aptMainLoop, recordCall .aptMainLoop w)
  else (true, w)

/-- The library type `Image`: pixel data pointer (`none` is `NULL`) and four integers. -/
structure Image where
  data : Option Nat
  width : Int
  height : Int
  mipmaps : Int
  format : Int
  deriving DecidableEq, Repr

/-- `void ToggleFullscreen(void)`. -/
def ToggleFullscreen (w : World) : World :=
  TRACELOG .LOG_WARNING "ToggleFullscreen() not implemented on target platform" w

/-- `void ToggleBorderlessWindowed(void)`. -/
def ToggleBorderlessWindowed (w : World) : World :=
  TRACELOG .LOG_WARNING "ToggleBorderlessWindowed() not implemented on target platform" w

/-- `void MaximizeWindow(void)`. -/
def MaximizeWindow (w : World) : World :=
  TRACELOG .LOG_WARNING "MaximizeWindow() not implemented on target platform" w

/-- `void MinimizeWindow(void)`. -/
def MinimizeWindow (w : World) : World :=
  TRACELOG .LOG_WARNING "MinimizeWindow() not implemented on target platform" w

/-- `void RestoreWindow(void)`. -/
def RestoreWindow (w : World) : World :=
  TRACELOG .LOG_WARNING "RestoreWindow() not implemented on target platform" w

/-- `void SetWindowState(unsigned int flags)`. -/
def SetWindowState (_flags : Nat) (w : World) : World :=
  TRACELOG .LOG_WARNING "SetWindowState() not implemented on target platform" w

/-- `void ClearWindowState(unsigned int flags)`. -/
def ClearWindowState (_flags : Nat) (w : World) : World :=
  TRACELOG .LOG_WARNING "ClearWindowState() not implemented on target platform" w

/-- `void SetWindowIcon(Image image)`. -/
def SetWindowIcon (_image : Image) (w : World) : World :=
  TRACELOG .LOG_WARNING "SetWindowIcon() not implemented on target platform" w

/-- `void SetWindowIcons(Image *images, int count)`. -/
def SetWindowIcons (_images : List Image) (_count : Int) (w : World) : World :=
  TRACELOG .LOG_WARNING "SetWindowIcons() not implemented on target platform" w

/-- `void SetWindowTitle(const char *title)`: `CORE.Window.title = title;` -/
def SetWindowTitle (title : String) (w : World) : World :=
  { w with CORE.Window.title := title }

/-- `void SetWindowPosition(int x, int y)`:
`CORE.Window.position.x = x; CORE.Window.position.y = y;` -/
def SetWindowPosition (x y : Int) (w : World) : World :=
  let w1 := { w with CORE.Window.position.x := x }
  { w1 with CORE.Window.position.y := y }

/-- `void SetWindowMonitor(int monitor)`. -/
def SetWindowMonitor (_monitor : Int) (w : World) : World :=
  TRACELOG .LOG_WARNING "SetWindowMonitor() not implemented on target platform" w

/-- `void SetWindowMinSize(int width, int height)`. -/
def SetWindowMinSize (width height : Int) (w : World) : World :=
  let w1 := { w with CORE.Window.screenMin.width := width }
  { w1 with CORE.Window.screenMin.height := height }

/-- `void SetWindowMaxSize(int width, int height)`. -/
def SetWindowMaxSize (width height : Int) (w : World) : World :=
  let w1 := { w with CORE.Window.screenMax.width := width }
  { w1 with CORE.Window.screenMax.height := height }

/-- `void SetWindowSize(int width, int height)`. -/
def SetWindowSize (width height : Int) (w : World) : World :=
  let w1 := { w with CORE.Window.screen.width := width }
  { w1 with CORE.Window.screen.height := height }

/-- `void SetWindowOpacity(float opacity)`. -/
def SetWindowOpacity (_opacity : ℚ) (w : World) : World :=
  TRACELOG .LOG_WARNING "SetWindowOpacity() not implemented on target platform" w

/-- `void SetWindowFocused(void)`. -/
def SetWindowFocused (w : World) : World :=
  TRACELOG .LOG_WARNING "SetWindowFocused() not implemented on target platform" w

/-- `void *GetWindowHandle(void)`; the message names `SetWindowMonitor()` in the source. -/
def GetWindowHandle (w : World) : Option Nat × World :=
  (none, TRACELOG .LOG_WARNING "SetWindowMonitor() not implemented on target platform" w)

/-- `int GetMonitorCount(void)`. -/
def GetMonitorCount (w : World) : Int × World :=
  (1, TRACELOG .LOG_WARNING "GetMonitorCount() not implemented on target platform" w)

/-- `int GetCurrentMonitor(void)`. -/
def GetCurrentMonitor (w : World) : Int × World :=
  (0, TRACELOG .LOG_WARNING "GetCurrentMonitor() not implemented on target platform" w)

/-- `Vector2 GetMonitorPosition(int monitor)`: `return (Vector2){ 0, 0 };` -/
def GetMonitorPosition (_monitor : Int) (w : World) : Vector2 × World :=
  (⟨0, 0⟩, TRACELOG .LOG_WARNING "GetMonitorPosition() not implemented on target platform" w)

/-- `int GetMonitorWidth(int monitor)`. -/
def GetMonitorWidth (_monitor : Int) (w : World) : Int × World :=
  (0, TRACELOG .LOG_WARNING "GetMonitorWidth() not implemented on target platform" w)

/-- `int GetMonitorHeight(int monitor)`. -/
def GetMonitorHeight (_monitor : Int) (w : World) : Int × World :=
  (0, TRACELOG .LOG_WARNING "GetMonitorHeight() not implemented on target platform" w)

/-- `int GetMonitorPhysicalWidth(int monitor)`. -/
def GetMonitorPhysicalWidth (_monitor : Int) (w : World) : Int × World :=
  (0, TRACELOG .LOG_WARNING "GetMonitorPhysicalWidth() not implemented on target platform" w)

/-- `int GetMonitorPhysicalHeight(int monitor)`. -/
def GetMonitorPhysicalHeight (_monitor : Int) (w : World) : Int × World :=
  (0, TRACELOG .LOG_WARNING "GetMonitorPhysicalHeight() not implemented on target platform" w)

/-- `int GetMonitorRefreshRate(int monitor)`. -/
def GetMonitorRefreshRate (_monitor : Int) (w : World) : Int × World :=
  (0, TRACELOG .LOG_WARNING "GetMonitorRefreshRate() not implemented on target platform" w)

/-- `const char *GetMonitorName(int monitor)`: `return "";` -/
def GetMonitorName (_monitor : Int) (w : World) : Option String × World :=
  (some "", TRACELOG .LOG_WARNING "GetMonitorName() not implemented on target platform" w)

/-- `Vector2 GetWindowPosition(void)`:
`int x = 0; int y = 0; TRACELOG(...); return (Vector2){ (float)x, (float)y };` -/
def GetWindowPosition (w : World) : Vector2 × World :=
  let x : Int := 0
  let y : Int := 0
  let w1 := TRACELOG .LOG_WARNING "GetWindowPosition() not implemented on target platform" w
  (⟨(x : ℚ), (y : ℚ)⟩, w1)

/-- `Vector2 GetWindowScaleDPI(void)`: `Vector2 scale = { 1 }; TRACELOG(...); return scale;`
The initializer list has one element: it initializes `x`, and C zero-initializes the
remaining member `y`. -/
def GetWindowScaleDPI (w : World) : Vector2 × World :=
  let scale : Vector2 := { x := 1, y := 0 }
  let w1 := TRACELOG .LOG_WARNING "GetWindowScaleDPI() not implemented on target platform" w
  (scale, w1)

/-- `void SetClipboardText(const char *text)`. -/
def SetClipboardText (_text : String) (w : World) : World :=
  TRACELOG .LOG_WARNING "SetClipboardText() not implemented on target platform" w

/-- `const char *GetClipboardText(void)`: `return NULL;` -/
def GetClipboardText (w : World) : Option String × World :=
  (none, TRACELOG .LOG_WARNING "GetClipboardText() not implemented on target platform" w)

/-- `Image GetClipboardImage(void)`: `Image image = { 0 }; TRACELOG(...); return image;` -/
def GetClipboardImage (w : World) : Image × World :=
  let image : Image := { data := none, width := 0, height := 0, mipmaps := 0, format := 0 }
  (image, TRACELOG .LOG_WARNING "GetClipboardImage() not implemented on target platform" w)

/-- `void ShowCursor(void)`. -/
def ShowCursor (w : World) : World :=
  TRACELOG .LOG_WARNING "ShowCursor() not implemented on target platform" w

/-- `void HideCursor(void)`. -/
def HideCursor (w : World) : World :=
  TRACELOG .LOG_WARNING "HideCursor() not implemented on target platform" w

/-- `void EnableCursor(void)`. -/
def EnableCursor (w : World) : World :=
  TRACELOG .LOG_WARNING "EnableCursor() not implemented on target platform" w

/-- `void DisableCursor(void)`. -/
def DisableCursor (w : World) : World :=
  TRACELOG .LOG_WARNING "DisableCursor() not implemented on target platform" w

/-! ## Misc -/

/-- Round to the nearest integer, ties to the even one. -/
def roundHalfEven (m : ℚ) : Int :=
  let f := ⌊m⌋
  if m - f < 1 / 2 then f
  else if 1 / 2 < m - f then f + 1
  else if f % 2 = 0 then f else f + 1

/-- The C type `double` on the target is IEEE 754 binary64, and every conversion to `double`
and every `double` operation returns the exact result rounded to nearest, ties to even, with
53 significant bits: the exact value `q` in the binade `2 ^ e <= |q| < 2 ^ (e + 1)` is rounded
to a multiple of `2 ^ (e - 52)`. The exponent range is not modelled: every value `GetTime`
computes is 0 or lies between `2 ^ (-29)` and `2 ^ 64`, inside the normal range. -/
def roundToDouble (q : ℚ) : ℚ :=
  if q = 0 then 0
  else
    let e := Int.log 2 |q|
    (roundHalfEven (q / 2 ^ (e - 52)) : ℚ) * 2 ^ (e - 52)

/-- `#define TICKS_PER_SEC 268123480.0`, a literal that is a `double` exactly. -/
def TICKS_PER_SEC : ℚ := 268123480

/-- `static inline double u64_to_double(u64 value)`:
`return (((double)(u32)(value >> 32))*0x100000000ULL+(u32)value);`
Both casts to `u32` reduce modulo `2 ^ 32`; the two `u32` values and the constant are
converted to `double`, then multiplied and added in `double`. -/
def u64_to_double (value : Nat) : ℚ :=
  let hi : Nat := (value >>> 32) % 2 ^ 32
  let lo : Nat := value % 2 ^ 32
  let product := roundToDouble (roundToDouble (hi : ℚ) * roundToDouble (4294967296 : ℚ))
  roundToDouble (product + roundToDouble (lo : ℚ))

/-- Subtraction of two `uint64_t` values, which wraps modulo `2 ^ 64`. -/
def sub64 (a b : Nat) : Nat :=
  (a % 2 ^ 64 + 2 ^ 64 - b % 2 ^ 64) % 2 ^ 64

/-- `double GetTime(void)`:
`uint64_t time = svcGetSystemTick();
return u64_to_double(time - CORE.Time.base) / TICKS_PER_SEC;` -/
def GetTime (sdk : SDK) (w : World) : ℚ × World :=
  let time := sdk.svcGetSystemTick
  (roundToDouble (u64_to_double (sub64 time w.CORE.Time.base) / TICKS_PER_SEC),
    recordCall .svcGetSystemTick w)

/-- SDK answers with the system tick at `tick`. -/
def tickAt (tick : Nat) : SDK :=
  { aptMainLoop := true, hidKeysDown := 0, hidKeysUp := 0, svcGetSystemTick := tick }

/-- The libc function `strchr(s, c)` on the characters of `s` before its terminator: the
offset of the first occurrence of `c`, `none` for `NULL`. The terminator itself is found
when `c` is the NUL character. -/
def strchr : List Char → Char → Option Nat
  | [], c => if c = Char.ofNat 0 then some 0 else none
  | x :: xs, c => if x = c then some 0 else (strchr xs c).map (· + 1)

/-- The single-quote character (code 39) searched by the security check. -/
def singleQuote : Char := Char.ofNat 39

/-- Text of the warning at line 471. -/
def maliciousWarning : String :=
  "SYSTEM: Provided URL could be potentially malicious, avoid [\x27] character"

/-- Text of the warning at line 474. -/
def openURLNotImplemented : String :=
  "OpenURL() not implemented on target platform"

/-- `void OpenURL(const char *url)`:
`if (strchr(url, QUOTE) != NULL) TRACELOG(LOG_WARNING, "... potentially malicious ...");
else { TRACELOG(LOG_WARNING, "OpenURL() not implemented on target platform"); }`
where QUOTE is the single-quote character literal. The statements that would build and
run a command are comments in the source. -/
def OpenURL (url : String) (w : World) : World :=
  if (strchr url.toList singleQuote).isSome then TRACELOG .LOG_WARNING maliciousWarning w
  else TRACELOG .LOG_WARNING openURLNotImplemented w

/-! ## Inputs -/

/-- `int SetGamepadMappings(const char *mappings)`. -/
def SetGamepadMappings (_mappings : String) (w : World) : Int × World :=
  (0, TRACELOG .LOG_WARNING "SetGamepadMappings() not implemented on target platform" w)

/-- `void SetGamepadVibration(int gamepad, float leftMotor, float rightMotor,
float duration)`. -/
def SetGamepadVibration (_gamepad : Int) (_leftMotor _rightMotor _duration : ℚ) (w : World) :
    World :=
  TRACELOG .LOG_WARNING "SetGamepadVibration() not available on target platform" w

/-- `void SetMousePosition(int x, int y)`. -/
def SetMousePosition (_x _y : Int) (w : World) : World :=
  TRACELOG .LOG_WARNING "SetMousePosition() not implemented on target platform" w

/-- `void SetMouseCursor(int cursor)`. -/
def SetMouseCursor (_cursor : Int) (w : World) : World :=
  TRACELOG .LOG_WARNING "SetMouseCursor() not implemented on target platform" w

/-- `const char *GetKeyName(int key)`: `return NULL;` -/
def GetKeyName (_key : Int) (w : World) : Option String × World :=
  (none, TRACELOG .LOG_WARNING "GetKeyName() not implemented on target platform" w)

/-- The part of the world outside the trace log is the same in `w2` as in `w`: the `CORE`
context, the `platform` record and the trace of SDK calls. -/
def leavesStateUnchanged (w w2 : World) : Prop :=
  w2.CORE = w.CORE ∧ w2.platform = w.platform ∧ w2.calls = w.calls

/-! ## Input polling -/

/-- Constants and target behaviour that the backend takes from outside the sources at hand:
array sizes from the library configuration, the key indices `DS_KEY_*` from the library
header, and the value the target gives to `1 << i` for `i >= 32`, which C leaves open for a
32-bit `int`. -/
structure Config where
  MAX_KEYBOARD_KEYS : Nat
  MAX_MOUSE_BUTTONS : Nat
  MAX_TOUCH_POINTS : Nat
  DS_KEY_UP : Nat
  DS_KEY_DOWN : Nat
  DS_KEY_LEFT : Nat
  DS_KEY_RIGHT : Nat
  DS_KEY_DUP : Nat
  DS_KEY_DDOWN : Nat
  DS_KEY_DLEFT : Nat
  DS_KEY_DRIGHT : Nat
  DS_KEY_CPAD_UP : Nat
  DS_KEY_CPAD_DOWN : Nat
  DS_KEY_CPAD_LEFT : Nat
  DS_KEY_CPAD_RIGHT : Nat
  shiftBeyondWidth : Nat → Nat

/-- The loop `for (int i = 0; i < n; i++) body`, on explicit state. -/
def forLoop {σ : Type} (n : Nat) (body : Nat → σ → σ) (s : σ) : σ :=
  (List.range n).foldl (fun acc i => body i acc) s

/-- The array store `a[i] = v`. -/
def store {α : Type} (a : Nat → α) (i : Nat) (v : α) : Nat → α :=
  fun j => if j = i then v else a j

/-- The C expression `1 << i` on a 32-bit `int`, converted to `u32` for the mask test: the
bit `i` for `i < 32` (the sign bit for `i = 31`), and what the target gives for `i >= 32`. -/
def shl1 (cfg : Config) (i : Nat) : Nat :=
  (if i < 32 then 2 ^ i else cfg.shiftBeyondWidth i) % 2 ^ 32

/-- The C expression `a || b` on integers, as the integer 1 or 0. -/
def logicalOr (a b : Nat) : Nat :=
  if a ≠ 0 ∨ b ≠ 0 then 1 else 0

/-- Body of the loop at lines 536-540:
`previousKeyState[i] = currentKeyState[i]; keyRepeatInFrame[i] = 0;` -/
def registerKey (i : Nat) (k : KeyboardData) : KeyboardData :=
  let k1 := { k with previousKeyState := store k.previousKeyState i (k.currentKeyState i) }
  { k1 with keyRepeatInFrame := store k1.keyRepeatInFrame i 0 }

/-- Body of the loop at line 543:
`previousButtonState[i] = currentButtonState[i];` -/
def registerButton (i : Nat) (m : MouseData) : MouseData :=
  { m with previousButtonState := store m.previousButtonState i (m.currentButtonState i) }

/-- Body of the loop at line 553:
`previousTouchState[i] = currentTouchState[i];` -/
def registerTouch (i : Nat) (t : TouchData) : TouchData :=
  { t with previousTouchState := store t.previousTouchState i (t.currentTouchState i) }

/-- Body of the loop at line 556: `position[i] = (Vector2){ 0, 0 };` -/
def resetTouchPosition (i : Nat) (t : TouchData) : TouchData :=
  { t with position := store t.position i ⟨0, 0⟩ }

/-- Body of the loop at lines 565-573:
`if (kDown & (1 << i)) currentKeyState[i] = 1; if (kUp & (1 << i)) currentKeyState[i] = 0;` -/
def applyKeyMasks (cfg : Config) (kDown kUp : Nat) (i : Nat) (k : KeyboardData) :
    KeyboardData :=
  let k1 := if kDown &&& shl1 cfg i ≠ 0 then
      { k with currentKeyState := store k.currentKeyState i 1 } else k
  if kUp &&& shl1 cfg i ≠ 0 then
    { k1 with currentKeyState := store k1.currentKeyState i 0 } else k1

/-- One statement of lines 576-579:
`currentKeyState[dst] = (currentKeyState[a] || currentKeyState[b]);` -/
def eitherPad (dst a b : Nat) (k : KeyboardData) : KeyboardData :=
  { k with currentKeyState :=
      store k.currentKeyState dst (logicalOr (k.currentKeyState a) (k.currentKeyState b)) }

/-- `void PollInputEvents(void)`, statement by statement. -/
def PollInputEvents (cfg : Config) (sdk : SDK) (w : World) : World :=
  let kb0 := w.CORE.Input.Keyboard
  let ms0 := w.CORE.Input.Mouse
  let tc0 := w.CORE.Input.Touch
  -- Reset keys/chars pressed registered
  let kb1 := { kb0 with keyPressedQueueCount := 0 }
  let kb2 := { kb1 with charPressedQueueCount := 0 }
  -- Reset last gamepad button/axis registered state
  let gp1 := { w.CORE.Input.Gamepad with lastButtonPressed := 0 }
  -- Register previous keys states
  let kb3 := forLoop cfg.MAX_KEYBOARD_KEYS registerKey kb2
  -- Register previous mouse states
  let ms1 := forLoop cfg.MAX_MOUSE_BUTTONS registerButton ms0
  -- Register previous mouse wheel state
  let ms2 := { ms1 with previousWheelMove := ms1.currentWheelMove }
  let ms3 := { ms2 with currentWheelMove := ⟨0, 0⟩ }
  -- Register previous mouse position
  let ms4 := { ms3 with previousPosition := ms3.currentPosition }
  -- Register previous touch states
  let tc1 := forLoop cfg.MAX_TOUCH_POINTS registerTouch tc0
  -- Reset touch positions
  let tc2 := forLoop cfg.MAX_TOUCH_POINTS resetTouchPosition tc1
  let tc3 := { tc2 with position := store tc2.position 0 ms4.currentPosition }
  let win1 := { w.CORE.Window with resizedLastFrame := false }
  -- hidScanInput(); u32 kDown = hidKeysDown(); u32 kUp = hidKeysUp();
  let kDown := sdk.hidKeysDown % 2 ^ 32
  let kUp := sdk.hidKeysUp % 2 ^ 32
  let kb4 := forLoop 64 (applyKeyMasks cfg kDown kUp) kb3
  -- either d-pad or c-pad
  let kb5 := eitherPad cfg.DS_KEY_UP cfg.DS_KEY_DUP cfg.DS_KEY_CPAD_UP kb4
  let kb6 := eitherPad cfg.DS_KEY_DOWN cfg.DS_KEY_DDOWN cfg.DS_KEY_CPAD_DOWN kb5
  let kb7 := eitherPad cfg.DS_KEY_LEFT cfg.DS_KEY_DLEFT cfg.DS_KEY_CPAD_LEFT kb6
  let kb8 := eitherPad cfg.DS_KEY_RIGHT cfg.DS_KEY_DRIGHT cfg.DS_KEY_CPAD_RIGHT kb7
  { CORE :=
      { Window := win1
        Input := { Keyboard := kb8, Mouse := ms4, Touch := tc3, Gamepad := gp1 }
        Time := w.CORE.Time }
    platform := w.platform
    log := w.log
    calls := w.calls ++ [ExternCall.hidScanInput, ExternCall.hidKeysDown, ExternCall.hidKeysUp] }

/-- The four aggregate direction indices written by lines 576-579. They name four different
keys. -/
def aggregateKeys (cfg : Config) : List Nat :=
  [cfg.DS_KEY_UP, cfg.DS_KEY_DOWN, cfg.DS_KEY_LEFT, cfg.DS_KEY_RIGHT]

/-- The eight d-pad and c-pad indices read by lines 576-579. -/
def sourceKeys (cfg : Config) : List Nat :=
  [cfg.DS_KEY_DUP, cfg.DS_KEY_CPAD_UP, cfg.DS_KEY_DDOWN, cfg.DS_KEY_CPAD_DOWN,
   cfg.DS_KEY_DLEFT, cfg.DS_KEY_CPAD_LEFT, cfg.DS_KEY_DRIGHT, cfg.DS_KEY_CPAD_RIGHT]

/-! ## Concrete inputs used to evaluate the model -/

/-- A configuration with the default array sizes of the library, the d-pad and c-pad keys at
the bit positions of the SDK key masks, the aggregate keys above the mask bits, and a target
on which a shift by 32 or more gives 0. -/
def sampleConfig : Config :=
  { MAX_KEYBOARD_KEYS := 512, MAX_MOUSE_BUTTONS := 8, MAX_TOUCH_POINTS := 8
    DS_KEY_UP := 40, DS_KEY_DOWN := 41, DS_KEY_LEFT := 42, DS_KEY_RIGHT := 43
    DS_KEY_DUP := 6, DS_KEY_DDOWN := 7, DS_KEY_DLEFT := 5, DS_KEY_DRIGHT := 4
    DS_KEY_CPAD_UP := 30, DS_KEY_CPAD_DOWN := 31, DS_KEY_CPAD_LEFT := 29
    DS_KEY_CPAD_RIGHT := 28
    shiftBeyondWidth := fun _ => 0 }

/-- A world right after start-up: every array zeroed, window not ready. -/
def zeroWorld : World :=
  { CORE :=
      { Window :=
          { title := "", ready := false, resizedLastFrame := false, position := ⟨0, 0⟩
            screen := ⟨0, 0⟩, screenMin := ⟨0, 0⟩, screenMax := ⟨0, 0⟩ }
        Input :=
          { Keyboard :=
              { currentKeyState := fun _ => 0, previousKeyState := fun _ => 0
                keyRepeatInFrame := fun _ => 0, keyPressedQueueCount := 0
                charPressedQueueCount := 0 }
            Mouse :=
              { currentPosition := ⟨0, 0⟩, previousPosition := ⟨0, 0⟩
                currentButtonState := fun _ => 0, previousButtonState := fun _ => 0
                currentWheelMove := ⟨0, 0⟩, previousWheelMove := ⟨0, 0⟩ }
            Touch :=
              { position := fun _ => ⟨0, 0⟩, currentTouchState := fun _ => 0
                previousTouchState := fun _ => 0 }
            Gamepad := { lastButtonPressed := 0 } }
        Time := { base := 0 } }
    platform := { handle := none, romfs := 0, currentScreen := 0 }
    log := []
    calls := [] }

/-- The world `zeroWorld` after `InitPlatform` has set `CORE.Window.ready`. -/
def readyWorld : World :=
  { zeroWorld with CORE := { zeroWorld.CORE with
      Window := { zeroWorld.CORE.Window with ready := true } } }

/-- The world `readyWorld` with key 3 held, mouse button 1 held, touch point 2 active and
the mouse at (7, 9). -/
def busyWorld : World :=
  { readyWorld with CORE := { readyWorld.CORE with
      Input :=
        { Keyboard := { readyWorld.CORE.Input.Keyboard with
            currentKeyState := fun i => if i = 3 then 1 else 0 }
          Mouse := { readyWorld.CORE.Input.Mouse with
            currentPosition := ⟨7, 9⟩
            currentButtonState := fun i => if i = 1 then 1 else 0 }
          Touch := { readyWorld.CORE.Input.Touch with
            currentTouchState := fun i => if i = 2 then 1 else 0 }
          Gamepad := readyWorld.CORE.Input.Gamepad } } }

/-- SDK answers: main loop running, d-pad up (bit 6) newly pressed, nothing released. -/
def pressUp : SDK :=
  { aptMainLoop := true, hidKeysDown := 64, hidKeysUp := 0, svcGetSystemTick := 0 }

/-- SDK answers: main loop stopping, key 3 both pressed and released in the same scan. -/
def pressAndRelease : SDK :=
  { aptMainLoop := false, hidKeysDown := 8, hidKeysUp := 8, svcGetSystemTick := 0 }

end Rcore3DS

/-! ## Sprite button example (`examples/textures/textures_sprite_button.c`) -/

namespace SpriteButton

open Rcore3DS (Vector2)

/-- The library type `RL_Rectangle`. -/
structure RL_Rectangle where
  x : ℚ
  y : ℚ
  width : ℚ
  height : ℚ
  deriving DecidableEq, Repr

/-- The library constant `MOUSE_BUTTON_LEFT`. -/
def MOUSE_BUTTON_LEFT : Int := 0

/-- Answers of the library input calls made by one iteration of the main loop. -/
structure FrameInput where
  RL_GetMousePosition : Vector2
  RL_IsMouseButtonDown : Int → Bool
  RL_IsMouseButtonReleased : Int → Bool

/-- The locals of `main` that the update step writes, and the number of `RL_PlaySound`
calls made so far. -/
structure Locals where
  btnState : Int
  btnAction : Bool
  mousePoint : Vector2
  sourceRecY : ℚ
  soundsPlayed : Nat

/-- The locals after the initialization at lines 36-45. -/
def initialLocals : Locals :=
  { btnState := 0, btnAction := false, mousePoint := ⟨0, 0⟩, sourceRecY := 0,
    soundsPlayed := 0 }

/-- The update step of the main loop, lines 55-76. The library function
`RL_CheckCollisionPointRec` is a parameter; `btnBounds` and `frameHeight` are the values
computed once at lines 36-40. The product at line 76 multiplies by 0, 1 or 2. -/
def updateStep (RL_CheckCollisionPointRec : Vector2 → RL_Rectangle → Bool)
    (btnBounds : RL_Rectangle) (frameHeight : ℚ) (input : FrameInput) (s : Locals) : Locals :=
  -- mousePoint = RL_GetMousePosition(); btnAction = false;
  let s1 := { s with mousePoint := input.RL_GetMousePosition }
  let s2 := { s1 with btnAction := false }
  -- Check button state
  let s3 :=
    if RL_CheckCollisionPointRec s2.mousePoint btnBounds then
      let t1 :=
        if input.RL_IsMouseButtonDown MOUSE_BUTTON_LEFT then { s2 with btnState := 2 }
        else { s2 with btnState := 1 }
      if input.RL_IsMouseButtonReleased MOUSE_BUTTON_LEFT then { t1 with btnAction := true }
      else t1
    else { s2 with btnState := 0 }
  -- if (btnAction) RL_PlaySound(fxButton);
  let s4 := if s3.btnAction then { s3 with soundsPlayed := s3.soundsPlayed + 1 } else s3
  -- sourceRec.y = btnState*frameHeight;
  { s4 with sourceRecY := (s4.btnState : ℚ) * frameHeight }

/-- A point-in-rectangle test used to evaluate the model: left and top edges inside, right
and bottom edges outside. -/
def pointInRec (point : Vector2) (rec : RL_Rectangle) : Bool :=
  decide (point.x ≥ rec.x) && decide (point.x < rec.x + rec.width) &&
    decide (point.y ≥ rec.y) && decide (point.y < rec.y + rec.height)

/-- Button bounds used to evaluate the model. -/
def sampleBounds : RL_Rectangle := ⟨288, 172, 224, 106⟩

/-- A frame with the mouse at (300, 200), inside `sampleBounds`, left button down. -/
def pressInside : FrameInput :=
  { RL_GetMousePosition := ⟨300, 200⟩
    RL_IsMouseButtonDown := fun b => decide (b = 0)
    RL_IsMouseButtonReleased := fun _ => false }

/-- A frame with the mouse at (300, 200), inside `sampleBounds`, no button down. -/
def hoverInside : FrameInput :=
  { RL_GetMousePosition := ⟨300, 200⟩
    RL_IsMouseButtonDown := fun _ => false
    RL_IsMouseButtonReleased := fun _ => false }

/-- A frame with the mouse at (10, 10), outside `sampleBounds`, left button down. -/
def pressOutside : FrameInput :=
  { RL_GetMousePosition := ⟨10, 10⟩
    RL_IsMouseButtonDown := fun b => decide (b = 0)
    RL_IsMouseButtonReleased := fun _ => false }

end SpriteButton

/-! ## Depth-writing example (`examples/shaders/shaders_write_depth.c`) -/

namespace WriteDepth

open Rcore3DS (TraceLogLevel)

/-- The library type `RL_Texture2D`: GPU texture id and four integers. -/
structure RL_Texture2D where
  id : Nat
  width : Int
  height : Int
  mipmaps : Int
  format : Int
  deriving DecidableEq, Repr

/-- The library type `RL_RenderTexture2D`: framebuffer id, color texture, depth texture. -/
structure RL_RenderTexture2D where
  id : Nat
  texture : RL_Texture2D
  depth : RL_Texture2D
  deriving DecidableEq, Repr

/-- Constants of the library headers that the two functions name. -/
structure Constants where
  PIXELFORMAT_UNCOMPRESSED_R8G8B8A8 : Int
  RL_ATTACHMENT_COLOR_CHANNEL0 : Int
  RL_ATTACHMENT_DEPTH : Int
  RL_ATTACHMENT_TEXTURE2D : Int

/-- Calls into the rendering layer made by the two functions, with their arguments. The first
argument of `rlLoadTexture` is the pixel data pointer (`none` is the null pointer). -/
inductive RlglCall where
  | rlLoadFramebuffer
  | rlEnableFramebuffer (id : Nat)
  | rlDisableFramebuffer
  | rlLoadTexture (data : Option Nat) (width height format mipmapCount : Int)
  | rlLoadTextureDepth (width height : Int) (useRenderBuffer : Bool)
  | rlFramebufferAttach (fboId texId : Nat) (attachType attachTexType mipLevel : Int)
  | rlFramebufferComplete (id : Nat)
  | rlUnloadTexture (id : Nat)
  | rlUnloadFramebuffer (id : Nat)
  deriving DecidableEq, Repr

/-- Answers of the rendering layer to the calls that return a value. -/
structure Rlgl where
  rlLoadFramebuffer : Nat
  rlLoadTexture : Option Nat → Int → Int → Int → Int → Nat
  rlLoadTextureDepth : Int → Int → Bool → Nat
  rlFramebufferComplete : Nat → Bool

/-- What a function did: its calls into the rendering layer, in order, and its `TRACELOG`
lines (level, format text, arguments). -/
structure Effects where
  calls : List RlglCall
  log : List (TraceLogLevel × String × List Nat)
  deriving DecidableEq, Repr

/-- Record one call into the rendering layer. -/
def call (c : RlglCall) (e : Effects) : Effects :=
  { e with calls := e.calls ++ [c] }

/-- The macro `TRACELOG(level, text, args)`. -/
def TRACELOG (level : TraceLogLevel) (text : String) (args : List Nat) (e : Effects) : Effects :=
  { e with log := e.log ++ [(level, text, args)] }

/-- The initializer `{ 0 }` of a render texture. -/
def zeroTarget : RL_RenderTexture2D :=
  { id := 0
    texture := { id := 0, width := 0, height := 0, mipmaps := 0, format := 0 }
    depth := { id := 0, width := 0, height := 0, mipmaps := 0, format := 0 } }

/-- `RL_RenderTexture2D LoadRenderTextureDepthTex(int width, int height)`, statement by
statement, lines 116-152. The result is the returned target and what the call did. -/
def LoadRenderTextureDepthTex (k : Constants) (gl : Rlgl) (width height : Int) :
    RL_RenderTexture2D × Effects :=
  let e0 : Effects := { calls := [], log := [] }
  let t0 := zeroTarget
  -- target.id = rlLoadFramebuffer();
  let e1 := call .rlLoadFramebuffer e0
  let t1 := { t0 with id := gl.rlLoadFramebuffer }
  if t1.id > 0 then
    let e2 := call (.rlEnableFramebuffer t1.id) e1
    -- Create color texture (default to RGBA)
    let e3 := call (.rlLoadTexture none width height k.PIXELFORMAT_UNCOMPRESSED_R8G8B8A8 1) e2
    let colorId := gl.rlLoadTexture none width height k.PIXELFORMAT_UNCOMPRESSED_R8G8B8A8 1
    let t2 := { t1 with texture.id := colorId }
    let t3 := { t2 with texture.width := width }
    let t4 := { t3 with texture.height := height }
    let t5 := { t4 with texture.format := k.PIXELFORMAT_UNCOMPRESSED_R8G8B8A8 }
    let t6 := { t5 with texture.mipmaps := 1 }
    -- Create depth texture buffer (instead of raylib default renderbuffer)
    let e4 := call (.rlLoadTextureDepth width height false) e3
    let t7 := { t6 with depth.id := gl.rlLoadTextureDepth width height false }
    let t8 := { t7 with depth.width := width }
    let t9 := { t8 with depth.height := height }
    let t10 := { t9 with depth.format := 19 }
    let t11 := { t10 with depth.mipmaps := 1 }
    -- Attach color texture and depth texture to FBO
    let e5 := call (.rlFramebufferAttach t11.id t11.texture.id k.RL_ATTACHMENT_COLOR_CHANNEL0
      k.RL_ATTACHMENT_TEXTURE2D 0) e4
    let e6 := call (.rlFramebufferAttach t11.id t11.depth.id k.RL_ATTACHMENT_DEPTH
      k.RL_ATTACHMENT_TEXTURE2D 0) e5
    -- Check if fbo is complete with attachments (valid)
    let e7 := call (.rlFramebufferComplete t11.id) e6
    let e8 :=
      if gl.rlFramebufferComplete t11.id then
        TRACELOG .LOG_INFO "FBO: [ID %i] Framebuffer object created successfully" [t11.id] e7
      else e7
    let e9 := call .rlDisableFramebuffer e8
    (t11, e9)
  else
    (t1, TRACELOG .LOG_WARNING "FBO: Framebuffer object can not be created" [] e1)

/-- `void UnloadRenderTextureDepthTex(RL_RenderTexture2D target)`, lines 155-167. The result
is what the call did. -/
def UnloadRenderTextureDepthTex (target : RL_RenderTexture2D) : Effects :=
  let e0 : Effects := { calls := [], log := [] }
  if target.id > 0 then
    -- Color texture attached to FBO is deleted
    let e1 := call (.rlUnloadTexture target.texture.id) e0
    let e2 := call (.rlUnloadTexture target.depth.id) e1
    call (.rlUnloadFramebuffer target.id) e2
  else e0

/-- The call enables a framebuffer. -/
def RlglCall.isEnable : RlglCall → Bool
  | .rlEnableFramebuffer _ => true
  | _ => false

/-- The call creates a texture or attaches one. -/
def RlglCall.isTextureWork : RlglCall → Bool
  | .rlLoadTexture _ _ _ _ _ => true
  | .rlLoadTextureDepth _ _ _ => true
  | .rlFramebufferAttach _ _ _ _ _ => true
  | _ => false

/-- The call releases a GPU resource. -/
def RlglCall.isUnload : RlglCall → Bool
  | .rlUnloadTexture _ => true
  | .rlUnloadFramebuffer _ => true
  | _ => false

/-- The header constants with the values of the library headers. -/
def sampleConstants : Constants :=
  { PIXELFORMAT_UNCOMPRESSED_R8G8B8A8 := 7, RL_ATTACHMENT_COLOR_CHANNEL0 := 0
    RL_ATTACHMENT_DEPTH := 100, RL_ATTACHMENT_TEXTURE2D := 100 }

/-- A rendering layer that creates framebuffer 1, color texture 3 and depth texture 4, and
reports the framebuffer complete. -/
def workingRlgl : Rlgl :=
  { rlLoadFramebuffer := 1
    rlLoadTexture := fun _ _ _ _ _ => 3
    rlLoadTextureDepth := fun _ _ _ => 4
    rlFramebufferComplete := fun _ => true }

/-- A rendering layer that cannot create a framebuffer. -/
def failingRlgl : Rlgl :=
  { workingRlgl with rlLoadFramebuffer := 0 }

end WriteDepth

/-! ## Bone socket example (`examples/models/models_bone_socket.c`) -/

namespace BoneSocket

open Rcore3DS (forLoop store)

/-- `#define BONE_SOCKETS 3`. -/
def BONE_SOCKETS : Nat := 3

/-- `#define BONE_SOCKET_HAT 0`. -/
def BONE_SOCKET_HAT : Nat := 0

/-- `#define BONE_SOCKET_HAND_R 1`. -/
def BONE_SOCKET_HAND_R : Nat := 1

/-- `#define BONE_SOCKET_HAND_L 2`. -/
def BONE_SOCKET_HAND_L : Nat := 2

/-- The library type `RL_BoneInfo`: the characters of `name` before its terminator, and the
parent index. -/
structure RL_BoneInfo where
  name : String
  parent : Int

/-- The fields of the library type `RL_Model` that the search reads. -/
structure RL_Model where
  boneCount : Int
  bones : Nat → RL_BoneInfo

/-- Body of the loop at lines 65-84, with the library function `RL_TextIsEqual` as a
parameter. Each `continue` ends the iteration, so a later test runs only when the earlier
ones failed. -/
def searchStep (RL_TextIsEqual : String → String → Bool) (characterModel : RL_Model)
    (i : Nat) (boneSocketIndex : Nat → Int) : Nat → Int :=
  if RL_TextIsEqual (characterModel.bones i).name "socket_hat" then
    store boneSocketIndex BONE_SOCKET_HAT (i : Int)
  else if RL_TextIsEqual (characterModel.bones i).name "socket_hand_R" then
    store boneSocketIndex BONE_SOCKET_HAND_R (i : Int)
  else if RL_TextIsEqual (characterModel.bones i).name "socket_hand_L" then
    store boneSocketIndex BONE_SOCKET_HAND_L (i : Int)
  else boneSocketIndex

/-- Lines 62-84 of `main`: `int boneSocketIndex[BONE_SOCKETS] = { -1, -1, -1 };` followed by
the loop `for (int i = 0; i < characterModel.boneCount; i++)`. The result is the array
`boneSocketIndex` after the loop. -/
def searchSockets (RL_TextIsEqual : String → String → Bool) (characterModel : RL_Model) :
    Nat → Int :=
  let boneSocketIndex : Nat → Int := fun _ => -1
  forLoop characterModel.boneCount.toNat (searchStep RL_TextIsEqual characterModel)
    boneSocketIndex

/-- The value `r` is the index of the last bone of `characterModel` named `name`, or -1 when
there is none: `r` is -1 if and only if no bone with index in `[0, boneCount)` has that name,
and otherwise `r` is an index in `[0, boneCount)` of a bone with that name that is at least
every other such index. -/
def IsLastBoneNamed (characterModel : RL_Model) (name : String) (r : Int) : Prop :=
  (r = -1 ↔
    ∀ i : Nat, (i : Int) < characterModel.boneCount → (characterModel.bones i).name ≠ name) ∧
  (r ≠ -1 →
    ∃ i : Nat, r = (i : Int) ∧ (i : Int) < characterModel.boneCount ∧
      (characterModel.bones i).name = name ∧
      ∀ j : Nat, (j : Int) < characterModel.boneCount →
        (characterModel.bones j).name = name → j ≤ i)

/-- String comparison used to evaluate the model: true exactly on equal strings. -/
def textEq (a b : String) : Bool := decide (a = b)

/-- A model with six bones: two are named `socket_hand_R` (indices 1 and 4), one is named
`socket_hat` (index 3), none is named `socket_hand_L`. -/
def sampleModel : RL_Model :=
  { boneCount := 6
    bones := fun i =>
      { name :=
          if i = 1 then "socket_hand_R" else if i = 3 then "socket_hat"
          else if i = 4 then "socket_hand_R" else "bone"
        parent := (i : Int) - 1 } }

end BoneSocket

/-! ## Theorems -/

namespace Rcore3DS

set_option maxRecDepth 8192

/-! ### Loops and array stores -/

theorem forLoop_zero {σ : Type} (body : Nat → σ → σ) (s : σ) : forLoop 0 body s = s := rfl

theorem forLoop_succ {σ : Type} (n : Nat) (body : Nat → σ → σ) (s : σ) :
    forLoop (n + 1) body s = body n (forLoop n body s) := by
  simp [forLoop, List.range_succ, List.foldl_append]

/-- The mask test of the key loop reads bit `i` of the SDK mask, for `i < 32`. -/
theorem mask_test_iff_testBit (cfg : Config) (k i : Nat) (hi : i < 32) :
    (k % 2 ^ 32 &&& shl1 cfg i ≠ 0) ↔ k.testBit i = true := by
  have hpow : (2 : Nat) ^ i < 2 ^ 32 := Nat.pow_lt_pow_right (by decide) hi
  have hshl : shl1 cfg i = 2 ^ i := by
    simp only [shl1, if_pos hi]
    exact Nat.mod_eq_of_lt hpow
  rw [hshl]
  constructor
  · intro h
    obtain ⟨j, hj⟩ := Nat.ne_zero_implies_bit_true h
    rw [Nat.testBit_and, Nat.testBit_two_pow, Nat.testBit_mod_two_pow] at hj
    simp only [Bool.and_eq_true, decide_eq_true_eq] at hj
    obtain ⟨⟨_, hk⟩, hij⟩ := hj
    rw [hij]
    exact hk
  · intro h hzero
    have hbit : (k % 2 ^ 32 &&& 2 ^ i).testBit i = true := by
      rw [Nat.testBit_and, Nat.testBit_two_pow_self, Nat.testBit_mod_two_pow]
      simp [hi, h]
    rw [hzero] at hbit
    simp at hbit

/-! ### The loops of `PollInputEvents` -/

theorem forLoop_registerKey (n : Nat) (k : KeyboardData) :
    (forLoop n registerKey k).currentKeyState = k.currentKeyState ∧
    (∀ j, (forLoop n registerKey k).previousKeyState j =
      if j < n then k.currentKeyState j else k.previousKeyState j) := by
  induction n with
  | zero => simp [forLoop_zero]
  | succ n ih =>
    obtain ⟨hc, hp⟩ := ih
    rw [forLoop_succ]
    refine ⟨by simpa [registerKey] using hc, fun j => ?_⟩
    simp only [registerKey, store, hc, hp]
    by_cases hj : j = n
    · simp [hj]
    · have : j < n + 1 ↔ j < n := by omega
      simp [hj, this]

theorem forLoop_registerButton (n : Nat) (m : MouseData) :
    (forLoop n registerButton m).currentButtonState = m.currentButtonState ∧
    (forLoop n registerButton m).currentPosition = m.currentPosition ∧
    (forLoop n registerButton m).currentWheelMove = m.currentWheelMove ∧
    (∀ j, (forLoop n registerButton m).previousButtonState j =
      if j < n then m.currentButtonState j else m.previousButtonState j) := by
  induction n with
  | zero => simp [forLoop_zero]
  | succ n ih =>
    obtain ⟨hc, hpos, hwheel, hp⟩ := ih
    rw [forLoop_succ]
    refine ⟨by simpa [registerButton] using hc, by simpa [registerButton] using hpos,
      by simpa [registerButton] using hwheel, fun j => ?_⟩
    simp only [registerButton, store, hc, hp]
    by_cases hj : j = n
    · simp [hj]
    · have : j < n + 1 ↔ j < n := by omega
      simp [hj, this]

theorem forLoop_registerTouch (n : Nat) (t : TouchData) :
    (forLoop n registerTouch t).currentTouchState = t.currentTouchState ∧
    (∀ j, (forLoop n registerTouch t).previousTouchState j =
      if j < n then t.currentTouchState j else t.previousTouchState j) := by
  induction n with
  | zero => simp [forLoop_zero]
  | succ n ih =>
    obtain ⟨hc, hp⟩ := ih
    rw [forLoop_succ]
    refine ⟨by simpa [registerTouch] using hc, fun j => ?_⟩
    simp only [registerTouch, store, hc, hp]
    by_cases hj : j = n
    · simp [hj]
    · have : j < n + 1 ↔ j < n := by omega
      simp [hj, this]

theorem forLoop_resetTouchPosition (n : Nat) (t : TouchData) :
    (forLoop n resetTouchPosition t).previousTouchState = t.previousTouchState ∧
    (forLoop n resetTouchPosition t).currentTouchState = t.currentTouchState := by
  induction n with
  | zero => simp [forLoop_zero]
  | succ n ih =>
    rw [forLoop_succ]
    simpa [resetTouchPosition] using ih

theorem applyKeyMasks_previous (cfg : Config) (kDown kUp i : Nat) (k : KeyboardData) :
    (applyKeyMasks cfg kDown kUp i k).previousKeyState = k.previousKeyState := by
  unfold applyKeyMasks
  by_cases h1 : kDown &&& shl1 cfg i ≠ 0 <;> by_cases h2 : kUp &&& shl1 cfg i ≠ 0 <;>
    simp [h1, h2]

theorem applyKeyMasks_current (cfg : Config) (kDown kUp i : Nat) (k : KeyboardData) (j : Nat) :
    (applyKeyMasks cfg kDown kUp i k).currentKeyState j =
      if j = i then
        (if kUp &&& shl1 cfg i ≠ 0 then 0
         else if kDown &&& shl1 cfg i ≠ 0 then 1 else k.currentKeyState j)
      else k.currentKeyState j := by
  unfold applyKeyMasks
  by_cases h1 : kDown &&& shl1 cfg i ≠ 0 <;> by_cases h2 : kUp &&& shl1 cfg i ≠ 0 <;>
    by_cases hj : j = i <;> simp [h1, h2, hj, store]

theorem forLoop_applyKeyMasks (cfg : Config) (kDown kUp n : Nat) (k : KeyboardData) :
    (forLoop n (applyKeyMasks cfg kDown kUp) k).previousKeyState = k.previousKeyState ∧
    (∀ j, (forLoop n (applyKeyMasks cfg kDown kUp) k).currentKeyState j =
      if j < n then
        (if kUp &&& shl1 cfg j ≠ 0 then 0
         else if kDown &&& shl1 cfg j ≠ 0 then 1 else k.currentKeyState j)
      else k.currentKeyState j) := by
  induction n with
  | zero => simp [forLoop_zero]
  | succ n ih =>
    obtain ⟨hp, hc⟩ := ih
    rw [forLoop_succ]
    refine ⟨by rw [applyKeyMasks_previous, hp], fun j => ?_⟩
    rw [applyKeyMasks_current, hc]
    by_cases hj : j = n
    · subst hj
      simp
    · have : j < n + 1 ↔ j < n := by omega
      simp [hj, this]

theorem eitherPad_previous (dst a b : Nat) (k : KeyboardData) :
    (eitherPad dst a b k).previousKeyState = k.previousKeyState := rfl

theorem eitherPad_current_other (dst a b j : Nat) (k : KeyboardData) (h : j ≠ dst) :
    (eitherPad dst a b k).currentKeyState j = k.currentKeyState j := by
  simp [eitherPad, store, h]

/-- C1: `WindowShouldClose` returns true whenever `CORE.Window.ready` is false, without any
SDK call (the world, its call trace included, is unchanged and the answer does not depend
on the SDK); when `CORE.Window.ready` is true it calls `aptMainLoop` once and returns
exactly the negation of its answer, so it is true iff the main loop reports it should
stop. -/
theorem WindowShouldClose_spec (sdk : SDK) (w : World) :
    (w.CORE.Window.ready = false →
      (WindowShouldClose sdk w).1 = true ∧ (WindowShouldClose sdk w).2 = w ∧
        ∀ sdk2 : SDK, WindowShouldClose sdk2 w = WindowShouldClose sdk w) ∧
    (w.CORE.Window.ready = true →
      (WindowShouldClose sdk w).1 = !sdk.aptMainLoop ∧
        ((WindowShouldClose sdk w).1 = true ↔ sdk.aptMainLoop = false) ∧
        (WindowShouldClose sdk w).2.calls = w.calls ++ [ExternCall.aptMainLoop] ∧
        (WindowShouldClose sdk w).2.CORE = w.CORE) := by
  constructor
  · intro h
    simp [WindowShouldClose, h]
  · intro h
    simp [WindowShouldClose, h, recordCall]

/-- Witness for C1: with the window not ready the answer is true although the SDK would
report a running main loop; with the window ready and the SDK reporting that the main loop
stops the answer is true, and with a running main loop it is false. -/
theorem WindowShouldClose_spec_witness :
    (WindowShouldClose pressUp zeroWorld).1 = true ∧
    (WindowShouldClose pressAndRelease readyWorld).1 = true ∧
    (WindowShouldClose pressUp readyWorld).1 = false :=
  ⟨((WindowShouldClose_spec pressUp zeroWorld).1 rfl).1,
   ((WindowShouldClose_spec pressAndRelease readyWorld).2 rfl).1,
   ((WindowShouldClose_spec pressUp readyWorld).2 rfl).1⟩

/-- C2: `PollInputEvents` registers the previous input states: after the call
`previousKeyState[i]` is the `currentKeyState[i]` from before the call for every
`i < MAX_KEYBOARD_KEYS`, likewise `previousButtonState` for every `i < MAX_MOUSE_BUTTONS`
and `previousTouchState` for every `i < MAX_TOUCH_POINTS`, and `Mouse.previousPosition` is
the `Mouse.currentPosition` from before the call. -/
theorem PollInputEvents_registers_previous (cfg : Config) (sdk : SDK) (w : World) :
    (∀ i, i < cfg.MAX_KEYBOARD_KEYS →
      (PollInputEvents cfg sdk w).CORE.Input.Keyboard.previousKeyState i =
        w.CORE.Input.Keyboard.currentKeyState i) ∧
    (∀ i, i < cfg.MAX_MOUSE_BUTTONS →
      (PollInputEvents cfg sdk w).CORE.Input.Mouse.previousButtonState i =
        w.CORE.Input.Mouse.currentButtonState i) ∧
    (∀ i, i < cfg.MAX_TOUCH_POINTS →
      (PollInputEvents cfg sdk w).CORE.Input.Touch.previousTouchState i =
        w.CORE.Input.Touch.currentTouchState i) ∧
    (PollInputEvents cfg sdk w).CORE.Input.Mouse.previousPosition =
      w.CORE.Input.Mouse.currentPosition := by
  refine ⟨fun i hi => ?_, fun i hi => ?_, fun i hi => ?_, ?_⟩
  · simp only [PollInputEvents, eitherPad_previous]
    rw [(forLoop_applyKeyMasks _ _ _ _ _).1, (forLoop_registerKey _ _).2 i, if_pos hi]
  · simp only [PollInputEvents]
    rw [(forLoop_registerButton _ _).2.2.2 i, if_pos hi]
  · simp only [PollInputEvents]
    rw [(forLoop_resetTouchPosition _ _).1, (forLoop_registerTouch _ _).2 i, if_pos hi]
  · simp only [PollInputEvents]
    exact (forLoop_registerButton _ _).2.1

/-- Witness for C2 on `busyWorld`: key 3, mouse button 1 and touch point 2 were held before
the call and are registered as previous states, and the previous mouse position is (7, 9). -/
theorem PollInputEvents_registers_previous_witness :
    (PollInputEvents sampleConfig pressUp busyWorld).CORE.Input.Keyboard.previousKeyState 3 = 1 ∧
    (PollInputEvents sampleConfig pressUp busyWorld).CORE.Input.Mouse.previousButtonState 1 = 1 ∧
    (PollInputEvents sampleConfig pressUp busyWorld).CORE.Input.Touch.previousTouchState 2 = 1 ∧
    (PollInputEvents sampleConfig pressUp busyWorld).CORE.Input.Mouse.previousPosition =
      ⟨7, 9⟩ :=
  ⟨(PollInputEvents_registers_previous sampleConfig pressUp busyWorld).1 3 (by decide),
   (PollInputEvents_registers_previous sampleConfig pressUp busyWorld).2.1 1 (by decide),
   (PollInputEvents_registers_previous sampleConfig pressUp busyWorld).2.2.1 2 (by decide),
   (PollInputEvents_registers_previous sampleConfig pressUp busyWorld).2.2.2⟩

/-- Indices outside the four aggregate ones keep, through lines 576-579, the value the key
loop left. -/
theorem PollInputEvents_current_of_not_aggregate (cfg : Config) (sdk : SDK) (w : World)
    (j : Nat) (hj : j ∉ aggregateKeys cfg) :
    (PollInputEvents cfg sdk w).CORE.Input.Keyboard.currentKeyState j =
      if j < 64 then
        (if sdk.hidKeysUp % 2 ^ 32 &&& shl1 cfg j ≠ 0 then 0
         else if sdk.hidKeysDown % 2 ^ 32 &&& shl1 cfg j ≠ 0 then 1
         else w.CORE.Input.Keyboard.currentKeyState j)
      else w.CORE.Input.Keyboard.currentKeyState j := by
  simp only [aggregateKeys, List.mem_cons, List.mem_singleton, List.not_mem_nil, or_false,
    not_or] at hj
  obtain ⟨h1, h2, h3, h4⟩ := hj
  simp only [PollInputEvents]
  rw [eitherPad_current_other _ _ _ _ _ h4, eitherPad_current_other _ _ _ _ _ h3,
    eitherPad_current_other _ _ _ _ _ h2, eitherPad_current_other _ _ _ _ _ h1,
    (forLoop_applyKeyMasks _ _ _ _ _).2 j, (forLoop_registerKey _ _).1]

/-- C3: `PollInputEvents` applies the SDK key masks: for every bit position `i < 32` that is
none of the four aggregate direction indices, `currentKeyState[i]` after the call is 0 if
bit `i` of `hidKeysUp()` is set, else 1 if bit `i` of `hidKeysDown()` is set, else its value
from before the call, so a release wins when both bits are set. -/
theorem PollInputEvents_applies_key_masks (cfg : Config) (sdk : SDK) (w : World) (i : Nat)
    (hi : i < 32) (hUp : i ≠ cfg.DS_KEY_UP) (hDown : i ≠ cfg.DS_KEY_DOWN)
    (hLeft : i ≠ cfg.DS_KEY_LEFT) (hRight : i ≠ cfg.DS_KEY_RIGHT) :
    (PollInputEvents cfg sdk w).CORE.Input.Keyboard.currentKeyState i =
      if sdk.hidKeysUp.testBit i = true then 0
      else if sdk.hidKeysDown.testBit i = true then 1
      else w.CORE.Input.Keyboard.currentKeyState i := by
  have hagg : i ∉ aggregateKeys cfg := by
    simp [aggregateKeys, hUp, hDown, hLeft, hRight]
  rw [PollInputEvents_current_of_not_aggregate cfg sdk w i hagg, if_pos (by omega)]
  simp only [mask_test_iff_testBit cfg _ i hi]

/-- Witness for C3: key 3 is held before the call and the SDK reports bit 3 both pressed and
released. -/
theorem PollInputEvents_applies_key_masks_witness :
    (3 < 32 ∧ 3 ≠ sampleConfig.DS_KEY_UP ∧ 3 ≠ sampleConfig.DS_KEY_DOWN ∧
      3 ≠ sampleConfig.DS_KEY_LEFT ∧ 3 ≠ sampleConfig.DS_KEY_RIGHT) ∧
    (PollInputEvents sampleConfig pressAndRelease busyWorld).CORE.Input.Keyboard.currentKeyState 3
      = if pressAndRelease.hidKeysUp.testBit 3 = true then 0
        else if pressAndRelease.hidKeysDown.testBit 3 = true then 1
        else busyWorld.CORE.Input.Keyboard.currentKeyState 3 :=
  ⟨by decide, PollInputEvents_applies_key_masks sampleConfig pressAndRelease busyWorld 3
    (by decide) (by decide) (by decide) (by decide) (by decide)⟩

/-- The four statements of lines 576-579 on any keyboard state, when the aggregate indices
are pairwise distinct and none of them is a source index. -/
theorem eitherPads_current (cfg : Config) (k : KeyboardData)
    (hdistinct : (aggregateKeys cfg).Nodup)
    (hsources : ∀ a ∈ aggregateKeys cfg, ∀ s ∈ sourceKeys cfg, a ≠ s) (j : Nat) :
    (eitherPad cfg.DS_KEY_RIGHT cfg.DS_KEY_DRIGHT cfg.DS_KEY_CPAD_RIGHT
      (eitherPad cfg.DS_KEY_LEFT cfg.DS_KEY_DLEFT cfg.DS_KEY_CPAD_LEFT
        (eitherPad cfg.DS_KEY_DOWN cfg.DS_KEY_DDOWN cfg.DS_KEY_CPAD_DOWN
          (eitherPad cfg.DS_KEY_UP cfg.DS_KEY_DUP cfg.DS_KEY_CPAD_UP k)))).currentKeyState j =
      if j = cfg.DS_KEY_UP then
        logicalOr (k.currentKeyState cfg.DS_KEY_DUP) (k.currentKeyState cfg.DS_KEY_CPAD_UP)
      else if j = cfg.DS_KEY_DOWN then
        logicalOr (k.currentKeyState cfg.DS_KEY_DDOWN) (k.currentKeyState cfg.DS_KEY_CPAD_DOWN)
      else if j = cfg.DS_KEY_LEFT then
        logicalOr (k.currentKeyState cfg.DS_KEY_DLEFT) (k.currentKeyState cfg.DS_KEY_CPAD_LEFT)
      else if j = cfg.DS_KEY_RIGHT then
        logicalOr (k.currentKeyState cfg.DS_KEY_DRIGHT) (k.currentKeyState cfg.DS_KEY_CPAD_RIGHT)
      else k.currentKeyState j := by
  simp only [aggregateKeys, sourceKeys, List.nodup_cons, List.mem_cons, List.mem_singleton,
    List.not_mem_nil, or_false, not_or, List.nodup_nil, and_true, not_false_eq_true,
    forall_eq_or_imp, forall_eq, ne_eq] at hdistinct hsources
  obtain ⟨⟨hUD, hUL, hUR⟩, ⟨hDL, hDR⟩, hLR⟩ := hdistinct
  obtain ⟨⟨u1, u2, u3, u4, u5, u6, u7, u8⟩, ⟨d1, d2, d3, d4, d5, d6, d7, d8⟩,
    ⟨l1, l2, l3, l4, l5, l6, l7, l8⟩, ⟨r1, r2, r3, r4, r5, r6, r7, r8⟩⟩ := hsources
  simp only [eitherPad, store]
  by_cases hU : j = cfg.DS_KEY_UP
  · subst hU
    simp [hUD, hUL, hUR, Ne.symm u1, Ne.symm u2]
  · by_cases hD : j = cfg.DS_KEY_DOWN
    · subst hD
      simp [hU, hDL, hDR, Ne.symm u3, Ne.symm u4, Ne.symm d3, Ne.symm d4]
    · by_cases hL : j = cfg.DS_KEY_LEFT
      · subst hL
        simp [hU, hD, hLR, Ne.symm u5, Ne.symm u6, Ne.symm d5, Ne.symm d6]
      · by_cases hR : j = cfg.DS_KEY_RIGHT
        · subst hR
          simp [hU, hD, hL, Ne.symm u7, Ne.symm u8, Ne.symm d7, Ne.symm d8, Ne.symm l7,
            Ne.symm l8]
        · simp [hU, hD, hL, hR]

/-- The keyboard record after `PollInputEvents`: the four statements of lines 576-579 applied
to a record whose current key states are those the key loop left. -/
theorem PollInputEvents_keyboard (cfg : Config) (sdk : SDK) (w : World) :
    ∃ k : KeyboardData,
      (PollInputEvents cfg sdk w).CORE.Input.Keyboard =
        eitherPad cfg.DS_KEY_RIGHT cfg.DS_KEY_DRIGHT cfg.DS_KEY_CPAD_RIGHT
          (eitherPad cfg.DS_KEY_LEFT cfg.DS_KEY_DLEFT cfg.DS_KEY_CPAD_LEFT
            (eitherPad cfg.DS_KEY_DOWN cfg.DS_KEY_DDOWN cfg.DS_KEY_CPAD_DOWN
              (eitherPad cfg.DS_KEY_UP cfg.DS_KEY_DUP cfg.DS_KEY_CPAD_UP k))) ∧
      ∀ j, k.currentKeyState j =
        if j < 64 then
          (if sdk.hidKeysUp % 2 ^ 32 &&& shl1 cfg j ≠ 0 then 0
           else if sdk.hidKeysDown % 2 ^ 32 &&& shl1 cfg j ≠ 0 then 1
           else w.CORE.Input.Keyboard.currentKeyState j)
        else w.CORE.Input.Keyboard.currentKeyState j := by
  refine ⟨_, rfl, fun j => ?_⟩
  rw [(forLoop_applyKeyMasks _ _ _ _ _).2 j, (forLoop_registerKey _ _).1]

/-- C4: direction keys are either d-pad or c-pad. The four aggregate indices
`DS_KEY_UP/DOWN/LEFT/RIGHT` being the indices of four different keys and distinct from the
eight source indices `DS_KEY_D*` and `DS_KEY_CPAD_*`, after `PollInputEvents` each aggregate
key state is 1 if the state of its d-pad key or of its c-pad key is non-zero, and 0
otherwise. -/
theorem PollInputEvents_either_pad (cfg : Config) (sdk : SDK) (w : World)
    (hdistinct : (aggregateKeys cfg).Nodup)
    (hsources : ∀ a ∈ aggregateKeys cfg, ∀ s ∈ sourceKeys cfg, a ≠ s) :
    (PollInputEvents cfg sdk w).CORE.Input.Keyboard.currentKeyState cfg.DS_KEY_UP =
      (if (PollInputEvents cfg sdk w).CORE.Input.Keyboard.currentKeyState cfg.DS_KEY_DUP ≠ 0 ∨
          (PollInputEvents cfg sdk w).CORE.Input.Keyboard.currentKeyState cfg.DS_KEY_CPAD_UP ≠ 0
       then 1 else 0) ∧
    (PollInputEvents cfg sdk w).CORE.Input.Keyboard.currentKeyState cfg.DS_KEY_DOWN =
      (if (PollInputEvents cfg sdk w).CORE.Input.Keyboard.currentKeyState cfg.DS_KEY_DDOWN ≠ 0 ∨
          (PollInputEvents cfg sdk w).CORE.Input.Keyboard.currentKeyState cfg.DS_KEY_CPAD_DOWN ≠ 0
       then 1 else 0) ∧
    (PollInputEvents cfg sdk w).CORE.Input.Keyboard.currentKeyState cfg.DS_KEY_LEFT =
      (if (PollInputEvents cfg sdk w).CORE.Input.Keyboard.currentKeyState cfg.DS_KEY_DLEFT ≠ 0 ∨
          (PollInputEvents cfg sdk w).CORE.Input.Keyboard.currentKeyState cfg.DS_KEY_CPAD_LEFT ≠ 0
       then 1 else 0) ∧
    (PollInputEvents cfg sdk w).CORE.Input.Keyboard.currentKeyState cfg.DS_KEY_RIGHT =
      (if (PollInputEvents cfg sdk w).CORE.Input.Keyboard.currentKeyState cfg.DS_KEY_DRIGHT ≠ 0 ∨
          (PollInputEvents cfg sdk w).CORE.Input.Keyboard.currentKeyState cfg.DS_KEY_CPAD_RIGHT ≠ 0
       then 1 else 0) := by
  obtain ⟨k, hk, -⟩ := PollInputEvents_keyboard cfg sdk w
  have hfinal := eitherPads_current cfg k hdistinct hsources
  rw [← hk] at hfinal
  have hne : ∀ s ∈ sourceKeys cfg, s ≠ cfg.DS_KEY_UP ∧ s ≠ cfg.DS_KEY_DOWN ∧
      s ≠ cfg.DS_KEY_LEFT ∧ s ≠ cfg.DS_KEY_RIGHT := fun s hs =>
    ⟨fun h => hsources _ (by simp [aggregateKeys]) s hs h.symm,
     fun h => hsources _ (by simp [aggregateKeys]) s hs h.symm,
     fun h => hsources _ (by simp [aggregateKeys]) s hs h.symm,
     fun h => hsources _ (by simp [aggregateKeys]) s hs h.symm⟩
  have hsrc : ∀ s ∈ sourceKeys cfg,
      (PollInputEvents cfg sdk w).CORE.Input.Keyboard.currentKeyState s =
        k.currentKeyState s := by
    intro s hs
    obtain ⟨h1, h2, h3, h4⟩ := hne s hs
    rw [hfinal, if_neg h1, if_neg h2, if_neg h3, if_neg h4]
  simp only [aggregateKeys, List.nodup_cons, List.mem_cons, List.mem_singleton,
    List.not_mem_nil, or_false, not_or, List.nodup_nil, and_true, not_false_eq_true]
    at hdistinct
  obtain ⟨⟨hUD, hUL, hUR⟩, ⟨hDL, hDR⟩, hLR⟩ := hdistinct
  rw [hsrc cfg.DS_KEY_DUP (by simp [sourceKeys]),
    hsrc cfg.DS_KEY_CPAD_UP (by simp [sourceKeys]),
    hsrc cfg.DS_KEY_DDOWN (by simp [sourceKeys]),
    hsrc cfg.DS_KEY_CPAD_DOWN (by simp [sourceKeys]),
    hsrc cfg.DS_KEY_DLEFT (by simp [sourceKeys]),
    hsrc cfg.DS_KEY_CPAD_LEFT (by simp [sourceKeys]),
    hsrc cfg.DS_KEY_DRIGHT (by simp [sourceKeys]),
    hsrc cfg.DS_KEY_CPAD_RIGHT (by simp [sourceKeys])]
  refine ⟨?_, ?_, ?_, ?_⟩
  · rw [hfinal, if_pos rfl]
    rfl
  · rw [hfinal, if_neg (Ne.symm hUD), if_pos rfl]
    rfl
  · rw [hfinal, if_neg (Ne.symm hUL), if_neg (Ne.symm hDL), if_pos rfl]
    rfl
  · rw [hfinal, if_neg (Ne.symm hUR), if_neg (Ne.symm hDR), if_neg (Ne.symm hLR), if_pos rfl]
    rfl

/-- Witness for C4 on `sampleConfig` with d-pad up newly pressed: the hypotheses hold, the
aggregate up key is 1 and the aggregate down key is 0. -/
theorem PollInputEvents_either_pad_witness :
    ((aggregateKeys sampleConfig).Nodup ∧
      ∀ a ∈ aggregateKeys sampleConfig, ∀ s ∈ sourceKeys sampleConfig, a ≠ s) ∧
    (PollInputEvents sampleConfig pressUp busyWorld).CORE.Input.Keyboard.currentKeyState
        sampleConfig.DS_KEY_UP = 1 ∧
    (PollInputEvents sampleConfig pressUp busyWorld).CORE.Input.Keyboard.currentKeyState
        sampleConfig.DS_KEY_DOWN = 0 := by
  have h := PollInputEvents_either_pad sampleConfig pressUp busyWorld (by decide) (by decide)
  refine ⟨⟨by decide, by decide⟩, ?_, ?_⟩
  · rw [h.1]
    decide
  · rw [h.2.1]
    decide

/-! ### Rounding to `double` -/

theorem roundHalfEven_near (m : ℚ) :
    (roundHalfEven m : ℚ) ≤ m + 1 / 2 ∧ m - 1 / 2 ≤ (roundHalfEven m : ℚ) := by
  have h1 : ((⌊m⌋ : Int) : ℚ) ≤ m := Int.floor_le m
  have h2 : m < ((⌊m⌋ : Int) : ℚ) + 1 := Int.lt_floor_add_one m
  unfold roundHalfEven
  simp only
  split_ifs <;> push_cast <;> constructor <;> linarith

theorem roundHalfEven_intCast (n : Int) : roundHalfEven (n : ℚ) = n := by
  unfold roundHalfEven
  simp

theorem roundHalfEven_mono {a b : ℚ} (h : a ≤ b) : roundHalfEven a ≤ roundHalfEven b := by
  by_contra hlt
  push_neg at hlt
  have h1 : (roundHalfEven b : ℚ) + 1 ≤ (roundHalfEven a : ℚ) := by exact_mod_cast hlt
  have ha := (roundHalfEven_near a).1
  have hb := (roundHalfEven_near b).2
  have hab : a = b := le_antisymm h (by linarith)
  rw [hab] at hlt
  exact lt_irrefl _ hlt

theorem binade_bounds {q : ℚ} (hq : 0 < q) :
    (2 : ℚ) ^ Int.log 2 q ≤ q ∧ q < (2 : ℚ) ^ (Int.log 2 q + 1) := by
  have h1 := Int.zpow_log_le_self (b := 2) (r := q) (by decide) hq
  have h2 := Int.lt_zpow_succ_log_self (b := 2) (by decide) q
  exact ⟨by simpa using h1, by simpa using h2⟩

theorem scaled_bounds {q : ℚ} (hq : 0 < q) :
    (2 : ℚ) ^ (52 : ℕ) ≤ q / 2 ^ (Int.log 2 q - 52) ∧
    q / 2 ^ (Int.log 2 q - 52) < (2 : ℚ) ^ (53 : ℕ) := by
  obtain ⟨h1, h2⟩ := binade_bounds hq
  have hs : (0 : ℚ) < 2 ^ (Int.log 2 q - 52) := zpow_pos (by norm_num) _
  have e1 : (2 : ℚ) ^ (52 : ℕ) * 2 ^ (Int.log 2 q - 52) = 2 ^ Int.log 2 q := by
    rw [← zpow_natCast, ← zpow_add₀ (by norm_num : (2 : ℚ) ≠ 0)]
    congr 1
    push_cast
    ring
  have e2 : (2 : ℚ) ^ (53 : ℕ) * 2 ^ (Int.log 2 q - 52) = 2 ^ (Int.log 2 q + 1) := by
    rw [← zpow_natCast, ← zpow_add₀ (by norm_num : (2 : ℚ) ≠ 0)]
    congr 1
    push_cast
    ring
  constructor
  · rw [le_div_iff₀ hs, e1]
    exact h1
  · rw [div_lt_iff₀ hs, e2]
    exact h2

theorem roundToDouble_of_pos {q : ℚ} (hq : 0 < q) :
    roundToDouble q =
      (roundHalfEven (q / 2 ^ (Int.log 2 q - 52)) : ℚ) * 2 ^ (Int.log 2 q - 52) := by
  unfold roundToDouble
  rw [if_neg (ne_of_gt hq), abs_of_pos hq]

theorem mantissa_bounds {q : ℚ} (hq : 0 < q) :
    (2 : ℚ) ^ (52 : ℕ) ≤ (roundHalfEven (q / 2 ^ (Int.log 2 q - 52)) : ℚ) ∧
    (roundHalfEven (q / 2 ^ (Int.log 2 q - 52)) : ℚ) ≤ (2 : ℚ) ^ (53 : ℕ) := by
  obtain ⟨h1, h2⟩ := scaled_bounds hq
  have c52 : ((2 ^ 52 : Int) : ℚ) = (2 : ℚ) ^ (52 : ℕ) := by norm_num
  have c53 : ((2 ^ 53 : Int) : ℚ) = (2 : ℚ) ^ (53 : ℕ) := by norm_num
  constructor
  · have := roundHalfEven_mono (c52 ▸ h1 : ((2 ^ 52 : Int) : ℚ) ≤ _)
    rw [roundHalfEven_intCast] at this
    rw [← c52]
    exact_mod_cast this
  · have := roundHalfEven_mono (le_of_lt (c53 ▸ h2 : _ < ((2 ^ 53 : Int) : ℚ)))
    rw [roundHalfEven_intCast] at this
    rw [← c53]
    exact_mod_cast this

theorem roundToDouble_binade {q : ℚ} (hq : 0 < q) :
    (2 : ℚ) ^ Int.log 2 q ≤ roundToDouble q ∧ roundToDouble q ≤ (2 : ℚ) ^ (Int.log 2 q + 1) := by
  obtain ⟨h1, h2⟩ := mantissa_bounds hq
  have hs : (0 : ℚ) < 2 ^ (Int.log 2 q - 52) := zpow_pos (by norm_num) _
  have e1 : (2 : ℚ) ^ (52 : ℕ) * 2 ^ (Int.log 2 q - 52) = 2 ^ Int.log 2 q := by
    rw [← zpow_natCast, ← zpow_add₀ (by norm_num : (2 : ℚ) ≠ 0)]
    congr 1
    push_cast
    ring
  have e2 : (2 : ℚ) ^ (53 : ℕ) * 2 ^ (Int.log 2 q - 52) = 2 ^ (Int.log 2 q + 1) := by
    rw [← zpow_natCast, ← zpow_add₀ (by norm_num : (2 : ℚ) ≠ 0)]
    congr 1
    push_cast
    ring
  rw [roundToDouble_of_pos hq, ← e1, ← e2]
  exact ⟨mul_le_mul_of_nonneg_right h1 hs.le, mul_le_mul_of_nonneg_right h2 hs.le⟩

theorem roundToDouble_zero : roundToDouble 0 = 0 := by
  simp [roundToDouble]

theorem roundToDouble_nonneg {q : ℚ} (hq : 0 ≤ q) : 0 ≤ roundToDouble q := by
  rcases eq_or_lt_of_le hq with h | h
  · rw [← h, roundToDouble_zero]
  · exact le_trans (zpow_pos (by norm_num) _).le (roundToDouble_binade h).1

theorem roundToDouble_mono {a b : ℚ} (ha : 0 ≤ a) (h : a ≤ b) :
    roundToDouble a ≤ roundToDouble b := by
  rcases eq_or_lt_of_le ha with h0 | hpos
  · rw [← h0, roundToDouble_zero]
    exact roundToDouble_nonneg (le_trans ha h)
  · have hb : 0 < b := lt_of_lt_of_le hpos h
    have hlog : Int.log 2 a ≤ Int.log 2 b := Int.log_mono_right hpos h
    rcases eq_or_lt_of_le hlog with he | hlt
    · rw [roundToDouble_of_pos hpos, roundToDouble_of_pos hb, he]
      have hs : (0 : ℚ) < 2 ^ (Int.log 2 b - 52) := zpow_pos (by norm_num) _
      apply mul_le_mul_of_nonneg_right _ hs.le
      have : a / 2 ^ (Int.log 2 b - 52) ≤ b / 2 ^ (Int.log 2 b - 52) :=
        div_le_div_of_nonneg_right h hs.le
      exact_mod_cast roundHalfEven_mono this
    · calc roundToDouble a ≤ (2 : ℚ) ^ (Int.log 2 a + 1) := (roundToDouble_binade hpos).2
        _ ≤ (2 : ℚ) ^ Int.log 2 b := zpow_le_zpow_right₀ (by norm_num) (by omega)
        _ ≤ roundToDouble b := (roundToDouble_binade hb).1

theorem roundToDouble_error {q : ℚ} (hq : 0 ≤ q) : |roundToDouble q - q| ≤ q / 2 ^ (53 : ℕ) := by
  rcases eq_or_lt_of_le hq with h0 | hpos
  · rw [← h0, roundToDouble_zero]
    simp
  · have hs : (0 : ℚ) < 2 ^ (Int.log 2 q - 52) := zpow_pos (by norm_num) _
    have hq2 : q = q / 2 ^ (Int.log 2 q - 52) * 2 ^ (Int.log 2 q - 52) := by
      field_simp
    obtain ⟨n1, n2⟩ := roundHalfEven_near (q / 2 ^ (Int.log 2 q - 52))
    have hscale : (2 : ℚ) ^ (Int.log 2 q - 52) * 2 ^ (52 : ℕ) = 2 ^ Int.log 2 q := by
      rw [← zpow_natCast, ← zpow_add₀ (by norm_num : (2 : ℚ) ≠ 0)]
      congr 1
      push_cast
      ring
    have hle : (2 : ℚ) ^ (Int.log 2 q - 52) * 2 ^ (52 : ℕ) ≤ q := by
      rw [hscale]
      exact (binade_bounds hpos).1
    have hdiff : roundToDouble q - q =
        ((roundHalfEven (q / 2 ^ (Int.log 2 q - 52)) : ℚ) - q / 2 ^ (Int.log 2 q - 52)) *
          2 ^ (Int.log 2 q - 52) := by
      rw [roundToDouble_of_pos hpos, sub_mul, ← hq2]
    rw [hdiff, abs_mul, abs_of_pos hs]
    have habs : |(roundHalfEven (q / 2 ^ (Int.log 2 q - 52)) : ℚ) -
        q / 2 ^ (Int.log 2 q - 52)| ≤ 1 / 2 := by
      rw [abs_le]
      constructor <;> linarith
    calc |(roundHalfEven (q / 2 ^ (Int.log 2 q - 52)) : ℚ) - q / 2 ^ (Int.log 2 q - 52)| *
          2 ^ (Int.log 2 q - 52)
        ≤ 1 / 2 * 2 ^ (Int.log 2 q - 52) := mul_le_mul_of_nonneg_right habs hs.le
      _ = (2 ^ (Int.log 2 q - 52) * 2 ^ (52 : ℕ)) / 2 ^ (53 : ℕ) := by
          field_simp
          ring
      _ ≤ q / 2 ^ (53 : ℕ) := div_le_div_of_nonneg_right hle (by positivity)

theorem roundToDouble_exact (n : Nat) (k : Int) (hn : n < 2 ^ 53) :
    roundToDouble ((n : ℚ) * 2 ^ k) = (n : ℚ) * 2 ^ k := by
  rcases Nat.eq_zero_or_pos n with h0 | hpos
  · subst h0
    simp [roundToDouble_zero]
  · have h2 : (2 : ℚ) ≠ 0 := by norm_num
    have hq : (0 : ℚ) < (n : ℚ) * 2 ^ k :=
      mul_pos (by exact_mod_cast hpos) (zpow_pos (by norm_num) _)
    have hlt : (n : ℚ) * 2 ^ k < ((2 : ℕ) : ℚ) ^ (53 + k) := by
      have hn2 : (n : ℚ) < 2 ^ (53 : ℕ) := by exact_mod_cast hn
      have : (n : ℚ) * 2 ^ k < 2 ^ (53 : ℕ) * 2 ^ k :=
        mul_lt_mul_of_pos_right hn2 (zpow_pos (by norm_num) _)
      rw [← zpow_natCast, ← zpow_add₀ h2] at this
      simpa using this
    have hlog : Int.log 2 ((n : ℚ) * 2 ^ k) < 53 + k :=
      (Int.lt_zpow_iff_log_lt (by decide) hq).1 hlt
    obtain ⟨j, hj⟩ : ∃ j : ℕ, (j : Int) = k - (Int.log 2 ((n : ℚ) * 2 ^ k) - 52) :=
      ⟨(k - (Int.log 2 ((n : ℚ) * 2 ^ k) - 52)).toNat, Int.toNat_of_nonneg (by omega)⟩
    have hm : (n : ℚ) * 2 ^ k / 2 ^ (Int.log 2 ((n : ℚ) * 2 ^ k) - 52) =
        (((n : Int) * 2 ^ j : Int) : ℚ) := by
      rw [mul_div_assoc, ← zpow_sub₀ h2, ← hj]
      push_cast
      rw [zpow_natCast]
    rw [roundToDouble_of_pos hq, hm, roundHalfEven_intCast]
    push_cast
    rw [mul_assoc, ← zpow_natCast, ← zpow_add₀ h2, hj]
    congr 2
    ring

/-! ### `GetTime` -/

theorem roundToDouble_natCast (n : Nat) (hn : n < 2 ^ 53) : roundToDouble (n : ℚ) = n := by
  have h := roundToDouble_exact n 0 hn
  simpa using h

theorem roundHalfEven_eq_of_near (m : ℚ) (n : Int) (h1 : m - 1 / 2 < n) (h2 : (n : ℚ) < m + 1 / 2) :
    roundHalfEven m = n := by
  obtain ⟨a, b⟩ := roundHalfEven_near m
  have hlt : (roundHalfEven m : ℚ) < n + 1 := by linarith
  have hgt : (n : ℚ) < roundHalfEven m + 1 := by linarith
  have hlt2 : roundHalfEven m < n + 1 := by exact_mod_cast hlt
  have hgt2 : n < roundHalfEven m + 1 := by exact_mod_cast hgt
  omega

theorem log_eq_of_binade {q : ℚ} (e : Int) (h1 : (2 : ℚ) ^ e ≤ q) (h2 : q < (2 : ℚ) ^ (e + 1)) :
    Int.log 2 q = e := by
  have hq : 0 < q := lt_of_lt_of_le (zpow_pos (by norm_num) _) h1
  have a : e ≤ Int.log 2 q :=
    (Int.zpow_le_iff_le_log (by decide) hq).1 (by simpa using h1)
  have b : Int.log 2 q < e + 1 :=
    (Int.lt_zpow_iff_log_lt (by decide) hq).1 (by simpa using h2)
  omega

/-- Evaluation of `roundToDouble` away from ties. -/
theorem roundToDouble_eval {q : ℚ} (e n : Int) (h1 : (2 : ℚ) ^ e ≤ q)
    (h2 : q < (2 : ℚ) ^ (e + 1)) (h3 : q / 2 ^ (e - 52) - 1 / 2 < n)
    (h4 : (n : ℚ) < q / 2 ^ (e - 52) + 1 / 2) :
    roundToDouble q = (n : ℚ) * 2 ^ (e - 52) := by
  have hq : 0 < q := lt_of_lt_of_le (zpow_pos (by norm_num) _) h1
  rw [roundToDouble_of_pos hq, log_eq_of_binade e h1 h2, roundHalfEven_eq_of_near _ n h3 h4]

theorem sub64_lt (a b : Nat) : sub64 a b < 2 ^ 64 :=
  Nat.mod_lt _ (by decide)

theorem sub64_of_le {a b : Nat} (hba : b ≤ a) (ha : a < 2 ^ 64) : sub64 a b = a - b := by
  unfold sub64
  have hb : b < 2 ^ 64 := lt_of_le_of_lt hba ha
  rw [Nat.mod_eq_of_lt ha, Nat.mod_eq_of_lt hb]
  have : a + 2 ^ 64 - b = (a - b) + 2 ^ 64 := by omega
  rw [this, Nat.add_mod_right, Nat.mod_eq_of_lt (by omega)]

theorem u64_to_double_eq (v : Nat) (hv : v < 2 ^ 64) :
    u64_to_double v = roundToDouble (v : ℚ) := by
  have hhi : v >>> 32 < 2 ^ 32 := by
    rw [Nat.shiftRight_eq_div_pow]
    omega
  have hlo : v % 2 ^ 32 < 2 ^ 32 := Nat.mod_lt _ (by decide)
  have hsplit : (v >>> 32) * 2 ^ 32 + v % 2 ^ 32 = v := by
    rw [Nat.shiftRight_eq_div_pow]
    omega
  have hconst : roundToDouble (4294967296 : ℚ) = 4294967296 := by
    have := roundToDouble_natCast 4294967296 (by decide)
    simpa using this
  have hprod : roundToDouble (((v >>> 32 : ℕ) : ℚ) * 4294967296) =
      ((v >>> 32 : ℕ) : ℚ) * 4294967296 := by
    have := roundToDouble_exact (v >>> 32) 32 (by omega)
    norm_num at this
    exact this
  unfold u64_to_double
  simp only
  rw [Nat.mod_eq_of_lt hhi, roundToDouble_natCast _ (by omega), hconst, hprod,
    roundToDouble_natCast _ (by omega)]
  congr 1
  have : ((((v >>> 32) * 2 ^ 32 + v % 2 ^ 32 : ℕ)) : ℚ) = (v : ℚ) := by rw [hsplit]
  rw [← this]
  push_cast
  ring




/-- The value of `GetTime` in terms of the wrapped tick difference. -/
theorem GetTime_value (sdk : SDK) (w : World) :
    (GetTime sdk w).1 =
      roundToDouble
        (roundToDouble (sub64 sdk.svcGetSystemTick w.CORE.Time.base : ℚ) / 268123480) := by
  unfold GetTime
  simp only [TICKS_PER_SEC]
  rw [u64_to_double_eq _ (sub64_lt _ _)]

/-- C5, amended: `GetTime` returns the elapsed time since `InitTimer` in seconds as a
`double`. For every 64-bit `v`, `u64_to_double(v)` is `v` rounded to the nearest `double`,
and exactly `v` when `v < 2 ^ 53`. With `d = (now - base) mod 2 ^ 64`, the result is `d`
rounded to `double`, divided by 268123480 and rounded to `double`; it is non-negative, it
differs from the exact rational `d / 268123480` by at most `(d / 268123480) / 2 ^ 51`, and
it is non-decreasing in `now` while `base <= now < 2 ^ 64`. -/
theorem GetTime_spec (sdk sdk2 : SDK) (w : World) :
    (∀ v, v < 2 ^ 64 →
      u64_to_double v = roundToDouble (v : ℚ) ∧ (v < 2 ^ 53 → u64_to_double v = (v : ℚ))) ∧
    ((sub64 sdk.svcGetSystemTick w.CORE.Time.base : Int) =
      ((sdk.svcGetSystemTick : Int) - (w.CORE.Time.base : Int)) % 2 ^ 64) ∧
    (GetTime sdk w).1 =
      roundToDouble
        (roundToDouble (sub64 sdk.svcGetSystemTick w.CORE.Time.base : ℚ) / 268123480) ∧
    0 ≤ (GetTime sdk w).1 ∧
    |(GetTime sdk w).1 - (sub64 sdk.svcGetSystemTick w.CORE.Time.base : ℚ) / 268123480| ≤
      (sub64 sdk.svcGetSystemTick w.CORE.Time.base : ℚ) / 268123480 / 2 ^ 51 ∧
    (w.CORE.Time.base ≤ sdk.svcGetSystemTick → sdk.svcGetSystemTick ≤ sdk2.svcGetSystemTick →
      sdk2.svcGetSystemTick < 2 ^ 64 → (GetTime sdk w).1 ≤ (GetTime sdk2 w).1) := by
  have hT : (0 : ℚ) < 268123480 := by norm_num
  refine ⟨fun v hv => ⟨u64_to_double_eq v hv, fun hv2 => ?_⟩, ?_, GetTime_value sdk w, ?_, ?_,
    fun h1 h2 h3 => ?_⟩
  · rw [u64_to_double_eq v hv, roundToDouble_natCast v hv2]
  · unfold sub64
    push_cast
    omega
  · rw [GetTime_value]
    exact roundToDouble_nonneg
      (div_nonneg (roundToDouble_nonneg (Nat.cast_nonneg _)) hT.le)
  · rw [GetTime_value]
    have hx : (0 : ℚ) ≤ (sub64 sdk.svcGetSystemTick w.CORE.Time.base : ℚ) := Nat.cast_nonneg _
    generalize (sub64 sdk.svcGetSystemTick w.CORE.Time.base : ℚ) = x at hx
    have hy : (0 : ℚ) ≤ roundToDouble x / 268123480 :=
      div_nonneg (roundToDouble_nonneg hx) hT.le
    have e1 := abs_le.1 (roundToDouble_error hx)
    have e2 := abs_le.1 (roundToDouble_error hy)
    have hr : roundToDouble x / 268123480 * 268123480 = roundToDouble x := by
      field_simp
    generalize roundToDouble x / 268123480 = y at hy e2 hr
    generalize roundToDouble y = z at e2
    generalize roundToDouble x = r at e1 hr
    rw [abs_le]
    norm_num at e1 e2 ⊢
    constructor <;> linarith
  · rw [GetTime_value, GetTime_value, sub64_of_le h1 (lt_of_le_of_lt h2 h3),
      sub64_of_le (le_trans h1 h2) h3]
    have hd : ((sdk.svcGetSystemTick - w.CORE.Time.base : ℕ) : ℚ) ≤
        ((sdk2.svcGetSystemTick - w.CORE.Time.base : ℕ) : ℚ) := by
      exact_mod_cast Nat.sub_le_sub_right h2 _
    exact roundToDouble_mono
      (div_nonneg (roundToDouble_nonneg (Nat.cast_nonneg _)) hT.le)
      (div_le_div_of_nonneg_right (roundToDouble_mono (Nat.cast_nonneg _) hd) hT.le)

/-- C5 as stated fails: with tick 1 and base 0 the result is the `double`
`4508839806251318 / 2 ^ 80`, which is not the exact rational `1 / 268123480`. -/
theorem GetTime_not_exact :
    (GetTime (tickAt 1) zeroWorld).1 = 4508839806251318 / 2 ^ 80 ∧
    (GetTime (tickAt 1) zeroWorld).1 ≠ 1 / 268123480 := by
  have hv : (GetTime (tickAt 1) zeroWorld).1 = 4508839806251318 / 2 ^ 80 := by
    rw [GetTime_value]
    have hs : sub64 (tickAt 1).svcGetSystemTick zeroWorld.CORE.Time.base = 1 := by decide
    rw [hs]
    have h1 : roundToDouble ((1 : ℕ) : ℚ) = 1 := by
      have := roundToDouble_natCast 1 (by decide)
      simpa using this
    rw [h1, roundToDouble_eval (-28) 4508839806251318 (by norm_num) (by norm_num)
      (by norm_num) (by norm_num)]
    norm_num
  refine ⟨hv, ?_⟩
  rw [hv]
  norm_num



/-- Witness for C5: `u64_to_double(5)` is 5, and with base 0 the time at tick 1 is at most
the time at tick 2. -/
theorem GetTime_spec_witness :
    u64_to_double 5 = 5 ∧
    (GetTime (tickAt 1) zeroWorld).1 ≤ (GetTime (tickAt 2) zeroWorld).1 :=
  ⟨((GetTime_spec (tickAt 1) (tickAt 2) zeroWorld).1 5 (by decide)).2 (by decide),
   (GetTime_spec (tickAt 1) (tickAt 2) zeroWorld).2.2.2.2.2 (by decide) (by decide)
     (by decide)⟩

/-! ### Misc and stubs -/

theorem strchr_isSome_iff (s : List Char) (c : Char) (hc : c ≠ Char.ofNat 0) :
    (strchr s c).isSome = true ↔ c ∈ s := by
  induction s with
  | nil => simp [strchr, hc]
  | cons x xs ih =>
    by_cases hx : x = c
    · simp [strchr, hx]
    · have hx2 : ¬ c = x := fun h => hx h.symm
      simp [strchr, hx, hx2, ih]

/-- C6: `OpenURL` performs its security check on every URL: it emits the "potentially
malicious" warning if and only if the url contains a single-quote character, emits the "not
implemented" warning if and only if it does not, and in both cases makes no SDK or system
call and leaves `CORE` and the platform record unchanged. -/
theorem OpenURL_spec (url : String) (w : World) :
    ((OpenURL url w).log = w.log ++ [(TraceLogLevel.LOG_WARNING, maliciousWarning)] ↔
      singleQuote ∈ url.toList) ∧
    ((OpenURL url w).log = w.log ++ [(TraceLogLevel.LOG_WARNING, openURLNotImplemented)] ↔
      singleQuote ∉ url.toList) ∧
    leavesStateUnchanged w (OpenURL url w) := by
  have hq : singleQuote ≠ Char.ofNat 0 := by decide
  have hmsg : maliciousWarning ≠ openURLNotImplemented := by decide
  have hiff := strchr_isSome_iff url.toList singleQuote hq
  by_cases h : singleQuote ∈ url.toList
  · have e : OpenURL url w = TRACELOG .LOG_WARNING maliciousWarning w := by
      unfold OpenURL
      rw [if_pos (hiff.2 h)]
    rw [e]
    refine ⟨⟨fun _ => h, fun _ => rfl⟩, ⟨fun hlog => ?_, fun hn => absurd h hn⟩, rfl, rfl, rfl⟩
    simp [TRACELOG, hmsg] at hlog
  · have e : OpenURL url w = TRACELOG .LOG_WARNING openURLNotImplemented w := by
      unfold OpenURL
      rw [if_neg (fun hh => h (hiff.1 hh))]
    rw [e]
    refine ⟨⟨fun hlog => ?_, fun hn => absurd hn h⟩, ⟨fun _ => h, fun _ => rfl⟩, rfl, rfl, rfl⟩
    simp [TRACELOG, Ne.symm hmsg] at hlog

/-- Witness for C6: a URL with a single quote gets the "potentially malicious" warning, a
URL without one gets the "not implemented" warning. -/
theorem OpenURL_spec_witness :
    (OpenURL "http://a\x27; reboot; \x27" zeroWorld).log =
      [(TraceLogLevel.LOG_WARNING, maliciousWarning)] ∧
    (OpenURL "http://a" zeroWorld).log =
      [(TraceLogLevel.LOG_WARNING, openURLNotImplemented)] :=
  ⟨(OpenURL_spec "http://a\x27; reboot; \x27" zeroWorld).1.2 (by decide),
   (OpenURL_spec "http://a" zeroWorld).2.1.2 (by decide)⟩

/-- C7, amended: `GetWindowPosition` is a not-implemented stub. In every state, also right
after `SetWindowPosition(x, y)`, it returns the vector (0, 0) and leaves `CORE` unchanged;
`SetWindowPosition(x, y)` stores `x` and `y` in `CORE.Window.position`. -/
theorem GetWindowPosition_after_SetWindowPosition (x y : Int) (w : World) :
    (GetWindowPosition w).1 = ⟨0, 0⟩ ∧
    (GetWindowPosition (SetWindowPosition x y w)).1 = ⟨0, 0⟩ ∧
    (SetWindowPosition x y w).CORE.Window.position = ⟨x, y⟩ ∧
    (GetWindowPosition (SetWindowPosition x y w)).2.CORE = (SetWindowPosition x y w).CORE := by
  refine ⟨?_, ?_, ?_, ?_⟩
  · simp [GetWindowPosition]
  · simp [GetWindowPosition]
  · simp [SetWindowPosition]
  · simp [GetWindowPosition, TRACELOG]

/-- C7 as stated fails: after `SetWindowPosition(1, 2)` the stored position is (1, 2) and
`GetWindowPosition` returns (0, 0), not (1, 2). -/
theorem GetWindowPosition_ignores_position :
    (SetWindowPosition 1 2 zeroWorld).CORE.Window.position = ⟨1, 2⟩ ∧
    (GetWindowPosition (SetWindowPosition 1 2 zeroWorld)).1 = ⟨0, 0⟩ ∧
    (GetWindowPosition (SetWindowPosition 1 2 zeroWorld)).1 ≠ ⟨1, 2⟩ := by
  decide

/-- C8: every "not implemented on target platform" stub leaves the `CORE` context and the
platform record unchanged (and makes no SDK call) for every argument, and each getter
returns a constant that does not depend on its argument or on the state: `GetMonitorCount`
1, `GetCurrentMonitor` 0, `GetMonitorWidth/Height/PhysicalWidth/PhysicalHeight/RefreshRate`
0, `GetMonitorPosition` (0, 0), `GetMonitorName` the empty string,
`GetWindowHandle/GetClipboardText/GetKeyName` `NULL`, `SetGamepadMappings` 0. -/
theorem not_implemented_stubs_spec (w : World) :
    leavesStateUnchanged w (ToggleFullscreen w) ∧
    leavesStateUnchanged w (ToggleBorderlessWindowed w) ∧
    leavesStateUnchanged w (MaximizeWindow w) ∧
    leavesStateUnchanged w (MinimizeWindow w) ∧
    leavesStateUnchanged w (RestoreWindow w) ∧
    (∀ flags, leavesStateUnchanged w (SetWindowState flags w)) ∧
    (∀ flags, leavesStateUnchanged w (ClearWindowState flags w)) ∧
    (∀ image, leavesStateUnchanged w (SetWindowIcon image w)) ∧
    (∀ images count, leavesStateUnchanged w (SetWindowIcons images count w)) ∧
    (∀ monitor, leavesStateUnchanged w (SetWindowMonitor monitor w)) ∧
    (∀ opacity, leavesStateUnchanged w (SetWindowOpacity opacity w)) ∧
    leavesStateUnchanged w (SetWindowFocused w) ∧
    ((GetWindowHandle w).1 = none ∧ leavesStateUnchanged w (GetWindowHandle w).2) ∧
    ((GetMonitorCount w).1 = 1 ∧ leavesStateUnchanged w (GetMonitorCount w).2) ∧
    ((GetCurrentMonitor w).1 = 0 ∧ leavesStateUnchanged w (GetCurrentMonitor w).2) ∧
    (∀ monitor, (GetMonitorPosition monitor w).1 = ⟨0, 0⟩ ∧
      leavesStateUnchanged w (GetMonitorPosition monitor w).2) ∧
    (∀ monitor, (GetMonitorWidth monitor w).1 = 0 ∧
      leavesStateUnchanged w (GetMonitorWidth monitor w).2) ∧
    (∀ monitor, (GetMonitorHeight monitor w).1 = 0 ∧
      leavesStateUnchanged w (GetMonitorHeight monitor w).2) ∧
    (∀ monitor, (GetMonitorPhysicalWidth monitor w).1 = 0 ∧
      leavesStateUnchanged w (GetMonitorPhysicalWidth monitor w).2) ∧
    (∀ monitor, (GetMonitorPhysicalHeight monitor w).1 = 0 ∧
      leavesStateUnchanged w (GetMonitorPhysicalHeight monitor w).2) ∧
    (∀ monitor, (GetMonitorRefreshRate monitor w).1 = 0 ∧
      leavesStateUnchanged w (GetMonitorRefreshRate monitor w).2) ∧
    (∀ monitor, (GetMonitorName monitor w).1 = some "" ∧
      leavesStateUnchanged w (GetMonitorName monitor w).2) ∧
    (∀ text, leavesStateUnchanged w (SetClipboardText text w)) ∧
    ((GetClipboardText w).1 = none ∧ leavesStateUnchanged w (GetClipboardText w).2) ∧
    ((GetClipboardImage w).1 = ⟨none, 0, 0, 0, 0⟩ ∧
      leavesStateUnchanged w (GetClipboardImage w).2) ∧
    leavesStateUnchanged w (ShowCursor w) ∧
    leavesStateUnchanged w (HideCursor w) ∧
    leavesStateUnchanged w (EnableCursor w) ∧
    leavesStateUnchanged w (DisableCursor w) ∧
    (∀ mappings, (SetGamepadMappings mappings w).1 = 0 ∧
      leavesStateUnchanged w (SetGamepadMappings mappings w).2) ∧
    (∀ gamepad leftMotor rightMotor duration,
      leavesStateUnchanged w (SetGamepadVibration gamepad leftMotor rightMotor duration w)) ∧
    (∀ x y, leavesStateUnchanged w (SetMousePosition x y w)) ∧
    (∀ cursor, leavesStateUnchanged w (SetMouseCursor cursor w)) ∧
    (∀ key, (GetKeyName key w).1 = none ∧ leavesStateUnchanged w (GetKeyName key w).2) := by
  have hlog : ∀ level text, leavesStateUnchanged w (TRACELOG level text w) :=
    fun _ _ => ⟨rfl, rfl, rfl⟩
  refine ⟨hlog _ _, hlog _ _, hlog _ _, hlog _ _, hlog _ _, fun _ => hlog _ _,
    fun _ => hlog _ _, fun _ => hlog _ _, fun _ _ => hlog _ _, fun _ => hlog _ _,
    fun _ => hlog _ _, hlog _ _, ⟨rfl, hlog _ _⟩, ⟨rfl, hlog _ _⟩, ⟨rfl, hlog _ _⟩,
    fun _ => ⟨rfl, hlog _ _⟩, fun _ => ⟨rfl, hlog _ _⟩, fun _ => ⟨rfl, hlog _ _⟩,
    fun _ => ⟨rfl, hlog _ _⟩, fun _ => ⟨rfl, hlog _ _⟩, fun _ => ⟨rfl, hlog _ _⟩,
    fun _ => ⟨rfl, hlog _ _⟩, fun _ => hlog _ _, ⟨rfl, hlog _ _⟩, ⟨rfl, hlog _ _⟩,
    hlog _ _, hlog _ _, hlog _ _, hlog _ _, fun _ => ⟨rfl, hlog _ _⟩,
    fun _ _ _ _ => hlog _ _, fun _ _ => hlog _ _, fun _ => hlog _ _,
    fun _ => ⟨rfl, hlog _ _⟩⟩

/-- C9, the code at the claim: in every state `GetWindowScaleDPI` returns the vector with
`x = 1` and `y = 0`, so its `y` component is not 1. -/
theorem GetWindowScaleDPI_returns (w : World) :
    (GetWindowScaleDPI w).1 = ⟨1, 0⟩ ∧ (GetWindowScaleDPI w).1.x = 1 ∧
    (GetWindowScaleDPI w).1.y = 0 ∧ (GetWindowScaleDPI w).1.y ≠ 1 := by
  simp [GetWindowScaleDPI]

end Rcore3DS

namespace SpriteButton

open Rcore3DS (Vector2)

/-- C10: after each update step `btnState` is 0 when the mouse point is outside `btnBounds`,
2 when it is inside and the left mouse button is down, and 1 when it is inside and the
button is not down; the value is always 0, 1 or 2, and it is the same for any previous
locals and any frame input with the same mouse point and the same left-button state. -/
theorem updateStep_btnState (collide : Vector2 → RL_Rectangle → Bool) (btnBounds : RL_Rectangle)
    (frameHeight : ℚ) (input : FrameInput) (s : Locals) :
    (collide input.RL_GetMousePosition btnBounds = false →
      (updateStep collide btnBounds frameHeight input s).btnState = 0) ∧
    (collide input.RL_GetMousePosition btnBounds = true →
      input.RL_IsMouseButtonDown MOUSE_BUTTON_LEFT = true →
      (updateStep collide btnBounds frameHeight input s).btnState = 2) ∧
    (collide input.RL_GetMousePosition btnBounds = true →
      input.RL_IsMouseButtonDown MOUSE_BUTTON_LEFT = false →
      (updateStep collide btnBounds frameHeight input s).btnState = 1) ∧
    ((updateStep collide btnBounds frameHeight input s).btnState = 0 ∨
      (updateStep collide btnBounds frameHeight input s).btnState = 1 ∨
      (updateStep collide btnBounds frameHeight input s).btnState = 2) ∧
    (∀ (input2 : FrameInput) (s2 : Locals),
      input2.RL_GetMousePosition = input.RL_GetMousePosition →
      input2.RL_IsMouseButtonDown MOUSE_BUTTON_LEFT =
        input.RL_IsMouseButtonDown MOUSE_BUTTON_LEFT →
      (updateStep collide btnBounds frameHeight input2 s2).btnState =
        (updateStep collide btnBounds frameHeight input s).btnState) := by
  have key : ∀ (i : FrameInput) (t : Locals),
      (updateStep collide btnBounds frameHeight i t).btnState =
        if collide i.RL_GetMousePosition btnBounds = true then
          (if i.RL_IsMouseButtonDown MOUSE_BUTTON_LEFT = true then 2 else 1)
        else 0 := by
    intro i t
    unfold updateStep
    by_cases hc : collide i.RL_GetMousePosition btnBounds = true <;>
      by_cases hd : i.RL_IsMouseButtonDown MOUSE_BUTTON_LEFT = true <;>
      by_cases hr : i.RL_IsMouseButtonReleased MOUSE_BUTTON_LEFT = true <;>
      simp [hc, hd, hr]
  refine ⟨fun hc => ?_, fun hc hd => ?_, fun hc hd => ?_, ?_, fun input2 s2 hp hd => ?_⟩
  · rw [key, hc]
    simp
  · rw [key, hc, hd]
    simp
  · rw [key, hc, hd]
    simp
  · rw [key]
    by_cases hc : collide input.RL_GetMousePosition btnBounds = true <;>
      by_cases hd : input.RL_IsMouseButtonDown MOUSE_BUTTON_LEFT = true <;> simp [hc, hd]
  · rw [key, key, hp, hd]

/-- Witness for C10 with `pointInRec` as the collision test: outside the bounds the state is
0 although the button is down and the previous state was 2; inside with the button down it
is 2; inside with no button down it is 1. -/
theorem updateStep_btnState_witness :
    (updateStep pointInRec sampleBounds 106 pressOutside
      { initialLocals with btnState := 2 }).btnState = 0 ∧
    (updateStep pointInRec sampleBounds 106 pressInside initialLocals).btnState = 2 ∧
    (updateStep pointInRec sampleBounds 106 hoverInside initialLocals).btnState = 1 :=
  ⟨(updateStep_btnState pointInRec sampleBounds 106 pressOutside _).1
     (by norm_num [pointInRec, pressOutside, sampleBounds]),
   (updateStep_btnState pointInRec sampleBounds 106 pressInside _).2.1
     (by norm_num [pointInRec, pressInside, sampleBounds]) (by decide),
   (updateStep_btnState pointInRec sampleBounds 106 hoverInside _).2.2.1
     (by norm_num [pointInRec, hoverInside, sampleBounds]) (by decide)⟩

end SpriteButton

namespace WriteDepth

/-! ### Render target with a depth texture -/

/-- The target returned by a load that got a framebuffer. -/
theorem LoadRenderTextureDepthTex_target (k : Constants) (gl : Rlgl) (width height : Int)
    (h : gl.rlLoadFramebuffer > 0) :
    (LoadRenderTextureDepthTex k gl width height).1 =
      { id := gl.rlLoadFramebuffer
        texture :=
          { id := gl.rlLoadTexture none width height k.PIXELFORMAT_UNCOMPRESSED_R8G8B8A8 1
            width := width, height := height
            format := k.PIXELFORMAT_UNCOMPRESSED_R8G8B8A8, mipmaps := 1 }
        depth :=
          { id := gl.rlLoadTextureDepth width height false
            width := width, height := height, format := 19, mipmaps := 1 } } := by
  unfold LoadRenderTextureDepthTex
  simp only [zeroTarget, if_pos h]

/-- C11: when `rlLoadFramebuffer` returns an id greater than 0, the target returned by
`LoadRenderTextureDepthTex(width, height)` has that id, a color texture with the requested
width and height, format `PIXELFORMAT_UNCOMPRESSED_R8G8B8A8` and 1 mipmap, and a depth
texture with the requested width and height, format 19 and 1 mipmap; the calls made are, in
order, load framebuffer, enable it, create the color texture, create the depth texture, attach
the color texture at `RL_ATTACHMENT_COLOR_CHANNEL0`, attach the depth texture at
`RL_ATTACHMENT_DEPTH`, check completeness, disable the framebuffer; so the two attachments
are made to that framebuffer, it is enabled exactly once, and the last call disables it. -/
theorem LoadRenderTextureDepthTex_success (k : Constants) (gl : Rlgl) (width height : Int)
    (h : gl.rlLoadFramebuffer > 0) :
    (LoadRenderTextureDepthTex k gl width height).1.id = gl.rlLoadFramebuffer ∧
    (LoadRenderTextureDepthTex k gl width height).1.texture =
      { id := gl.rlLoadTexture none width height k.PIXELFORMAT_UNCOMPRESSED_R8G8B8A8 1
        width := width, height := height
        format := k.PIXELFORMAT_UNCOMPRESSED_R8G8B8A8, mipmaps := 1 } ∧
    (LoadRenderTextureDepthTex k gl width height).1.depth =
      { id := gl.rlLoadTextureDepth width height false
        width := width, height := height, format := 19, mipmaps := 1 } ∧
    (LoadRenderTextureDepthTex k gl width height).2.calls =
      [RlglCall.rlLoadFramebuffer,
       RlglCall.rlEnableFramebuffer gl.rlLoadFramebuffer,
       RlglCall.rlLoadTexture none width height k.PIXELFORMAT_UNCOMPRESSED_R8G8B8A8 1,
       RlglCall.rlLoadTextureDepth width height false,
       RlglCall.rlFramebufferAttach gl.rlLoadFramebuffer
         (LoadRenderTextureDepthTex k gl width height).1.texture.id
         k.RL_ATTACHMENT_COLOR_CHANNEL0 k.RL_ATTACHMENT_TEXTURE2D 0,
       RlglCall.rlFramebufferAttach gl.rlLoadFramebuffer
         (LoadRenderTextureDepthTex k gl width height).1.depth.id
         k.RL_ATTACHMENT_DEPTH k.RL_ATTACHMENT_TEXTURE2D 0,
       RlglCall.rlFramebufferComplete gl.rlLoadFramebuffer,
       RlglCall.rlDisableFramebuffer] ∧
    (LoadRenderTextureDepthTex k gl width height).2.calls.filter RlglCall.isEnable =
      [RlglCall.rlEnableFramebuffer gl.rlLoadFramebuffer] ∧
    (LoadRenderTextureDepthTex k gl width height).2.calls.getLast? =
      some RlglCall.rlDisableFramebuffer := by
  unfold LoadRenderTextureDepthTex
  simp only [zeroTarget, if_pos h]
  by_cases hc : gl.rlFramebufferComplete gl.rlLoadFramebuffer = true
  · simp [hc, call, TRACELOG, RlglCall.isEnable]
  · simp [hc, call, RlglCall.isEnable]

/-- Witness for C11 with a rendering layer that creates framebuffer 1, color texture 3 and
depth texture 4, for an 800 x 450 target. -/
theorem LoadRenderTextureDepthTex_success_witness :
    workingRlgl.rlLoadFramebuffer > 0 ∧
    (LoadRenderTextureDepthTex sampleConstants workingRlgl 800 450).1 =
      { id := 1
        texture := { id := 3, width := 800, height := 450, mipmaps := 1, format := 7 }
        depth := { id := 4, width := 800, height := 450, mipmaps := 1, format := 19 } } ∧
    (LoadRenderTextureDepthTex sampleConstants workingRlgl 800 450).2.calls.getLast? =
      some RlglCall.rlDisableFramebuffer :=
  ⟨by decide, by decide,
    (LoadRenderTextureDepthTex_success sampleConstants workingRlgl 800 450
      (by decide)).2.2.2.2.2⟩

/-- C12: when `rlLoadFramebuffer` returns 0, `LoadRenderTextureDepthTex` returns the all-zero
render target and its only call is `rlLoadFramebuffer`: it creates no texture, attaches
nothing and enables no framebuffer; and `UnloadRenderTextureDepthTex` applied to a target
with id 0 makes no call at all. -/
theorem LoadRenderTextureDepthTex_failure (k : Constants) (gl : Rlgl) (width height : Int) :
    (gl.rlLoadFramebuffer = 0 →
      (LoadRenderTextureDepthTex k gl width height).1 = zeroTarget ∧
      (LoadRenderTextureDepthTex k gl width height).2.calls = [RlglCall.rlLoadFramebuffer] ∧
      ∀ c ∈ (LoadRenderTextureDepthTex k gl width height).2.calls,
        c.isTextureWork = false ∧ c.isEnable = false) ∧
    (∀ target : RL_RenderTexture2D, target.id = 0 →
      (UnloadRenderTextureDepthTex target).calls = [] ∧
      ∀ c ∈ (UnloadRenderTextureDepthTex target).calls, c.isUnload = false) := by
  constructor
  · intro h
    have hno : ¬ gl.rlLoadFramebuffer > 0 := by omega
    unfold LoadRenderTextureDepthTex
    simp only [zeroTarget, if_neg hno]
    simp [h, call, TRACELOG, RlglCall.isTextureWork, RlglCall.isEnable]
  · intro target h
    have hno : ¬ target.id > 0 := by omega
    unfold UnloadRenderTextureDepthTex
    simp [if_neg hno]

/-- Witness for C12 with a rendering layer that cannot create a framebuffer. -/
theorem LoadRenderTextureDepthTex_failure_witness :
    failingRlgl.rlLoadFramebuffer = 0 ∧
    (LoadRenderTextureDepthTex sampleConstants failingRlgl 800 450).1 = zeroTarget ∧
    (UnloadRenderTextureDepthTex
      (LoadRenderTextureDepthTex sampleConstants failingRlgl 800 450).1).calls = [] :=
  ⟨by decide,
   ((LoadRenderTextureDepthTex_failure sampleConstants failingRlgl 800 450).1 (by decide)).1,
   ((LoadRenderTextureDepthTex_failure sampleConstants failingRlgl 800 450).2 _
     (by decide)).1⟩

end WriteDepth

namespace BoneSocket

open Rcore3DS (forLoop store forLoop_zero forLoop_succ)

/-! ### Bone socket search -/

/-- A value that starts at -1 and at step `n` becomes `n` when `p n` holds and is kept
otherwise is, after `n` steps, the last index below `n` at which `p` holds, or -1. -/
theorem lastMatch_invariant (p : Nat → Prop) (r : Nat → Int) (h0 : r 0 = -1)
    (hs : ∀ n, (p n → r (n + 1) = (n : Int)) ∧ (¬ p n → r (n + 1) = r n)) (n : Nat) :
    (r n = -1 ∧ ∀ i, i < n → ¬ p i) ∨
    (∃ i, i < n ∧ r n = (i : Int) ∧ p i ∧ ∀ j, j < n → p j → j ≤ i) := by
  induction n with
  | zero => exact Or.inl ⟨h0, fun i hi => absurd hi (Nat.not_lt_zero i)⟩
  | succ n ih =>
    by_cases hp : p n
    · exact Or.inr ⟨n, Nat.lt_succ_self n, (hs n).1 hp, hp, fun j hj _ => Nat.le_of_lt_succ hj⟩
    · rw [(hs n).2 hp]
      rcases ih with ⟨hr, hnone⟩ | ⟨i, hi, hr, hpi, hmax⟩
      · refine Or.inl ⟨hr, fun j hj => ?_⟩
        rcases Nat.lt_succ_iff_lt_or_eq.1 hj with h | h
        · exact hnone j h
        · rw [h]
          exact hp
      · refine Or.inr ⟨i, Nat.lt_succ_of_lt hi, hr, hpi, fun j hj hpj => ?_⟩
        rcases Nat.lt_succ_iff_lt_or_eq.1 hj with h | h
        · exact hmax j h hpj
        · rw [h] at hpj
          exact absurd hpj hp

/-- One iteration of the search, slot by slot, when `RL_TextIsEqual` decides equality. -/
theorem searchStep_slots (eq : String → String → Bool) (hEq : ∀ a b, eq a b = true ↔ a = b)
    (m : RL_Model) (i : Nat) (idx : Nat → Int) :
    (searchStep eq m i idx BONE_SOCKET_HAT =
      if (m.bones i).name = "socket_hat" then (i : Int) else idx BONE_SOCKET_HAT) ∧
    (searchStep eq m i idx BONE_SOCKET_HAND_R =
      if (m.bones i).name = "socket_hand_R" then (i : Int) else idx BONE_SOCKET_HAND_R) ∧
    (searchStep eq m i idx BONE_SOCKET_HAND_L =
      if (m.bones i).name = "socket_hand_L" then (i : Int) else idx BONE_SOCKET_HAND_L) := by
  have h12 : ("socket_hat" : String) ≠ "socket_hand_R" := by decide
  have h13 : ("socket_hat" : String) ≠ "socket_hand_L" := by decide
  have h23 : ("socket_hand_R" : String) ≠ "socket_hand_L" := by decide
  unfold searchStep
  by_cases h1 : (m.bones i).name = "socket_hat"
  · have e1 : eq (m.bones i).name "socket_hat" = true := (hEq _ _).2 h1
    rw [if_pos e1, h1]
    simp [store, BONE_SOCKET_HAT, BONE_SOCKET_HAND_R, BONE_SOCKET_HAND_L, h12, h13]
  · have e1 : ¬ eq (m.bones i).name "socket_hat" = true := fun h => h1 ((hEq _ _).1 h)
    rw [if_neg e1]
    by_cases h2 : (m.bones i).name = "socket_hand_R"
    · have e2 : eq (m.bones i).name "socket_hand_R" = true := (hEq _ _).2 h2
      rw [if_pos e2, h2]
      simp [store, BONE_SOCKET_HAT, BONE_SOCKET_HAND_R, BONE_SOCKET_HAND_L, h23, Ne.symm h12]
    · have e2 : ¬ eq (m.bones i).name "socket_hand_R" = true := fun h => h2 ((hEq _ _).1 h)
      rw [if_neg e2]
      by_cases h3 : (m.bones i).name = "socket_hand_L"
      · have e3 : eq (m.bones i).name "socket_hand_L" = true := (hEq _ _).2 h3
        rw [if_pos e3, h3]
        simp [store, BONE_SOCKET_HAT, BONE_SOCKET_HAND_R, BONE_SOCKET_HAND_L, Ne.symm h13,
          Ne.symm h23]
      · have e3 : ¬ eq (m.bones i).name "socket_hand_L" = true :=
          fun h => h3 ((hEq _ _).1 h)
        rw [if_neg e3]
        simp [h1, h2, h3]

/-- From the loop invariant at `boneCount` to the statement about the bones of the model. -/
theorem isLastBoneNamed_of_invariant (m : RL_Model) (name : String) (r : Int)
    (h : (r = -1 ∧ ∀ i, i < m.boneCount.toNat → ¬ (m.bones i).name = name) ∨
      (∃ i, i < m.boneCount.toNat ∧ r = (i : Int) ∧ (m.bones i).name = name ∧
        ∀ j, j < m.boneCount.toNat → (m.bones j).name = name → j ≤ i)) :
    IsLastBoneNamed m name r := by
  have hlt : ∀ i : Nat, (i : Int) < m.boneCount ↔ i < m.boneCount.toNat := by
    intro i
    omega
  rcases h with ⟨hr, hnone⟩ | ⟨i, hi, hr, hpi, hmax⟩
  · refine ⟨⟨fun _ j hj => hnone j ((hlt j).1 hj), fun _ => hr⟩, fun hne => absurd hr hne⟩
  · have hne : r ≠ -1 := by
      rw [hr]
      omega
    refine ⟨⟨fun h1 => absurd h1 hne, fun hall => absurd hpi (hall i ((hlt i).2 hi))⟩,
      fun _ => ⟨i, hr, (hlt i).2 hi, hpi, fun j hj hpj => hmax j ((hlt j).1 hj) hpj⟩⟩

/-- C14: for every model, when `RL_TextIsEqual` is true exactly on equal strings, after the
search loop `boneSocketIndex[BONE_SOCKET_HAT]`, `boneSocketIndex[BONE_SOCKET_HAND_R]` and
`boneSocketIndex[BONE_SOCKET_HAND_L]` are each -1 if and only if no bone is named
`socket_hat`, `socket_hand_R`, `socket_hand_L` respectively, and otherwise an index `i` with
`0 <= i < boneCount` of a bone with that name, the largest such index. -/
theorem searchSockets_spec (RL_TextIsEqual : String → String → Bool)
    (hEq : ∀ a b, RL_TextIsEqual a b = true ↔ a = b) (characterModel : RL_Model) :
    IsLastBoneNamed characterModel "socket_hat"
      (searchSockets RL_TextIsEqual characterModel BONE_SOCKET_HAT) ∧
    IsLastBoneNamed characterModel "socket_hand_R"
      (searchSockets RL_TextIsEqual characterModel BONE_SOCKET_HAND_R) ∧
    IsLastBoneNamed characterModel "socket_hand_L"
      (searchSockets RL_TextIsEqual characterModel BONE_SOCKET_HAND_L) := by
  have hstep := searchStep_slots RL_TextIsEqual hEq characterModel
  refine ⟨?_, ?_, ?_⟩
  · apply isLastBoneNamed_of_invariant
    apply lastMatch_invariant (fun i => (characterModel.bones i).name = "socket_hat")
      (fun n => forLoop n (searchStep RL_TextIsEqual characterModel) (fun _ => -1)
        BONE_SOCKET_HAT) rfl
    intro n
    simp only [forLoop_succ]
    rw [(hstep n _).1]
    exact ⟨fun hp => if_pos hp, fun hp => if_neg hp⟩
  · apply isLastBoneNamed_of_invariant
    apply lastMatch_invariant (fun i => (characterModel.bones i).name = "socket_hand_R")
      (fun n => forLoop n (searchStep RL_TextIsEqual characterModel) (fun _ => -1)
        BONE_SOCKET_HAND_R) rfl
    intro n
    simp only [forLoop_succ]
    rw [(hstep n _).2.1]
    exact ⟨fun hp => if_pos hp, fun hp => if_neg hp⟩
  · apply isLastBoneNamed_of_invariant
    apply lastMatch_invariant (fun i => (characterModel.bones i).name = "socket_hand_L")
      (fun n => forLoop n (searchStep RL_TextIsEqual characterModel) (fun _ => -1)
        BONE_SOCKET_HAND_L) rfl
    intro n
    simp only [forLoop_succ]
    rw [(hstep n _).2.2]
    exact ⟨fun hp => if_pos hp, fun hp => if_neg hp⟩

/-- Witness for C14 on `sampleModel`: the hat socket is bone 3, the right-hand socket is bone
4, the later of the two bones with that name, and the left-hand socket stays -1. -/
theorem searchSockets_spec_witness :
    (∀ a b, textEq a b = true ↔ a = b) ∧
    searchSockets textEq sampleModel BONE_SOCKET_HAT = 3 ∧
    searchSockets textEq sampleModel BONE_SOCKET_HAND_R = 4 ∧
    searchSockets textEq sampleModel BONE_SOCKET_HAND_L = -1 ∧
    IsLastBoneNamed sampleModel "socket_hand_R"
      (searchSockets textEq sampleModel BONE_SOCKET_HAND_R) :=
  ⟨fun a b => by simp [textEq], by decide, by decide, by decide,
   (searchSockets_spec textEq (fun a b => by simp [textEq]) sampleModel).2.1⟩

end BoneSocket
